import Mathlib

/-!
Verification development for the `task_buffet` repository.

The Python sources are embedded shallowly:
* heterogeneous Python values that can occur as task parameters are the
  inductive type `Val` (ints, strings, nested lists);
* `util.tasks_eq` (src/task_buffet/util.py) is `tasks_eq`, with the dict
  branch specialised to task dictionaries (`dict_eq`), since dictionaries
  appear in this code base only as task-parameter dictionaries;
* `grid.ParamGrid` / `grid.nd_meshgrid` (src/task_buffet/grid.py) are
  `ParamGrid`, `nd_meshgrid`; numpy nd-arrays are modelled as a shape plus a
  multi-index-to-value function (`NdArr`), with C-order flattening;
* `buffet.TaskBuffet` operations (src/task_buffet/buffet.py) are the
  functions `setup_new_buffet`, `dump_buffet`, `open_buffet`,
  `check_merge_buffets` / `check_merge_grids`, `get_next_free`,
  `update_task`; Python exceptions are `Except BuffetErr`;
* the worker loop `buffet.run` is `runIter` / `runLoop`, with wall-clock
  readings supplied as an explicit per-iteration schedule and float times
  modelled as integers (only order comparisons matter);
* the supervised-subprocess execution of a claimed task is modelled by an
  abstract observation `ChildResult` of the child process, and
  `util.kill_proc_tree` by `kill_proc_tree` over an explicit list of
  descendant processes.
-/

deriving instance DecidableEq for Except

/-- Task status constants from src/task_buffet/buffet.py lines 44-47. -/
def TASK_FAILED : Int := -1

/-- `TASK_SUCCESS = 0` (buffet.py line 45). -/
def TASK_SUCCESS : Int := 0

/-- `TASK_AVAILABLE = 1` (buffet.py line 46). -/
def TASK_AVAILABLE : Int := 1

/-- `TASK_RUNNING = 2` (buffet.py line 47). -/
def TASK_RUNNING : Int := 2

/-- Python values that can occur as task-parameter values: integers,
strings, and (nested) lists.  (The code also special-cases
`functools.partial` objects and dictionaries inside `tasks_eq`; neither
occurs as a parameter value in any claim, so they are not part of the
value universe here.) -/
inductive Val where
  | int (n : Int)
  | str (s : String)
  | vlist (l : List Val)

mutual

/-- Decidable equality for `Val` (structural). -/
def Val.decEq : (a b : Val) → Decidable (a = b)
  | .int a, .int b =>
    match Int.decEq a b with
    | isTrue h => isTrue (by rw [h])
    | isFalse h => isFalse (fun hh => h (by cases hh; rfl))
  | .int _, .str _ => isFalse nofun
  | .int _, .vlist _ => isFalse nofun
  | .str _, .int _ => isFalse nofun
  | .str a, .str b =>
    match String.decEq a b with
    | isTrue h => isTrue (by rw [h])
    | isFalse h => isFalse (fun hh => h (by cases hh; rfl))
  | .str _, .vlist _ => isFalse nofun
  | .vlist _, .int _ => isFalse nofun
  | .vlist _, .str _ => isFalse nofun
  | .vlist a, .vlist b =>
    match Val.decEqList a b with
    | isTrue h => isTrue (by rw [h])
    | isFalse h => isFalse (fun hh => h (by cases hh; rfl))

/-- Decidable equality for lists of `Val`. -/
def Val.decEqList : (a b : List Val) → Decidable (a = b)
  | [], [] => isTrue rfl
  | [], _ :: _ => isFalse nofun
  | _ :: _, [] => isFalse nofun
  | x :: xs, y :: ys =>
    match Val.decEq x y, Val.decEqList xs ys with
    | isTrue h1, isTrue h2 => isTrue (by rw [h1, h2])
    | isFalse h1, _ => isFalse (fun hh => h1 (by cases hh; rfl))
    | isTrue _, isFalse h2 => isFalse (fun hh => h2 (by cases hh; rfl))

end

instance : DecidableEq Val := Val.decEq

mutual

/-- `util.tasks_eq` (src/task_buffet/util.py lines 20-65), restricted to
the constructors of `Val`:
* if either side is a string, compare with `==` (equal iff both are equal
  strings);
* if both have `__len__` (here: lists), compare lengths and then
  elementwise recursively;
* otherwise plain `==` on scalars. -/
def tasks_eq : Val → Val → Bool
  | .str a, .str b => a == b
  | .str _, _ => false
  | _, .str _ => false
  | .vlist a, .vlist b => (a.length == b.length) && tasks_eq_list a b
  | .vlist _, _ => false
  | _, .vlist _ => false
  | .int a, .int b => a == b

/-- The `for i in range(len(a)): tasks_eq(a[i], b[i])` loop of `tasks_eq`. -/
def tasks_eq_list : List Val → List Val → Bool
  | [], [] => true
  | x :: xs, y :: ys => tasks_eq x y && tasks_eq_list xs ys
  | _, _ => false

end

/-- A task-parameter dictionary `{name -> value}` as produced by
`ParamGrid.__getitem__`; modelled as an association list in insertion
order.  Python `dict` keys are unique; grids in all claims have distinct
parameter names, so no key ever collides. -/
abbrev TaskDict := List (String × Val)

/-- Insertion into a sorted list of strings (models one step of
`list.sort()` on dict keys). -/
def insertSorted (s : String) : List String → List String
  | [] => [s]
  | t :: ts => if s ≤ t then s :: t :: ts else t :: insertSorted s ts

/-- Ascending sort of dictionary keys: models `keys_a.sort()` in
`util.tasks_eq`'s dict branch. -/
def sortKeys (l : List String) : List String := l.foldr insertSorted []

/-- The dict branch of `util.tasks_eq` (util.py lines 25-47), specialised
to task dictionaries: compare sizes, then sorted key lists, then the value
under each key of `a` against the value under the same key in `b`. -/
def dict_eq (a b : TaskDict) : Bool :=
  if a.length != b.length then false
  else if !(sortKeys (a.map Prod.fst) == sortKeys (b.map Prod.fst)) then false
  else a.all (fun kv =>
    match b.lookup kv.1 with
    | some v => tasks_eq kv.2 v
    | none => false)

/-- A numpy nd-array of objects: a shape together with a function from
multi-indices (lists of coordinates, one per axis) to values.  Only
entries whose multi-index is in range of the shape are ever consumed. -/
structure NdArr where
  shape : List Nat
  data : List Nat → Val

/-- `arr2.repeat(k, axis=j)` on an object nd-array: axis `j` grows by the
factor `k`, and the entry at coordinate `q` along axis `j` is the original
entry at coordinate `q / k` (numpy repeats each element `k` times
consecutively). -/
def NdArr.repeatAxis (t : NdArr) (k : Nat) (j : Nat) : NdArr :=
  ⟨t.shape.set j (t.shape.getD j 0 * k),
   fun ks => t.data (ks.set j (ks.getD j 0 / k))⟩

/-- `sz = 1; for s in lens: sz *= s` (grid.py lines 45-47): the product of
a list of lengths, as the same left fold. -/
def prodList (l : List Nat) : Nat := l.foldl (fun a b => a * b) 1

/-- The C-order (row-major) multi-index of flat position `f` in an array
of the given shape: coordinate `j` is `f` divided by the size of the
trailing block, modulo the extent of axis `j`.  This is `numpy`'s
`flatten` order read backwards. -/
def unflattenIdx (shape : List Nat) (f : Nat) : List Nat :=
  (List.range shape.length).map (fun j => (f / prodList (shape.drop (j + 1))) % shape.getD j 0)

/-- `p.flatten()` on an object nd-array: the C-order list of its entries. -/
def NdArr.flat (t : NdArr) : List Val :=
  (List.range (prodList t.shape)).map (fun f => t.data (unflattenIdx t.shape f))

/-- `grid.nd_meshgrid(*arrs)` (grid.py lines 40-62):
reverse the argument list; for each position `i`, reshape the `i`-th array
to be along axis `i` (shape `slc`, all ones except `lens[i]` at `i`) and
`repeat` it along every other axis `j` by `lens[j]`; finally reverse the
list of arrays back. -/
def nd_meshgrid (arrs0 : List (List Val)) : List NdArr :=
  let arrs := arrs0.reverse
  let lens := arrs.map List.length
  let dim := arrs.length
  ((List.range dim).map (fun i =>
    let arr := arrs.getD i []
    let slc := (List.range dim).map (fun j => if j = i then lens.getD i 0 else 1)
    let arr2 : NdArr := ⟨slc, fun ks => arr.getD (ks.getD i 0) (Val.int 0)⟩
    (List.range dim).foldl
      (fun t j => if j = i then t else t.repeatAxis (lens.getD j 0) j) arr2)).reverse

/-- `grid.ParamGrid`: ordered parameter names plus one value sequence per
name.  `nvals` and `nparams` are the derived fields of `__init__`. -/
structure ParamGrid where
  names : List String
  values : List (List Val)
deriving DecidableEq

/-- `self.nvals = len(self.values[0])` (grid.py line 18). -/
def ParamGrid.nvals (g : ParamGrid) : Nat := (g.values.headD []).length

/-- `self.nparams = len(names)` (grid.py line 21). -/
def ParamGrid.nparams (g : ParamGrid) : Nat := g.names.length

/-- Python exceptions raised by the embedded code, by raise site:
* `uninitializedParams`: `setup_new_buffet` with no names and no values;
* `uninitializedGrid`: `get_next_free` with `task_params is None`;
* `configDiff`: grids differ and merging is disallowed;
* `mergeNoMatch`: "Unable to find match for a task while merging";
* `assertError`: the equal-length assert in `ParamGrid.__init__`;
* `indexError`: an out-of-range list/array subscript;
* `typeError`: `ParamGrid` constructed with a `None` argument;
* `attributeError`: grid comparison against a `None` saved grid;
* `unpickleError`: the persisted stream does not start with a status array;
* `taskError`: the task function raised;
* `statusError`: "Wrong status returned." -/
inductive BuffetErr where
  | uninitializedParams
  | uninitializedGrid
  | configDiff
  | mergeNoMatch
  | assertError
  | indexError
  | typeError
  | attributeError
  | unpickleError
  | taskError
  | statusError
deriving DecidableEq

/-- `ParamGrid.__init__(names, values, meshgrid)` (grid.py lines 9-22):
in meshgrid mode build `nd_meshgrid(*values)` and flatten each component;
`len(values[0])` raises IndexError on an empty value list; the
`assert(np.all([len(v) == self.nvals for v in self.values]))` raises
AssertionError when the sequences have unequal lengths. -/
def mkParamGridAux (names : List String) : List (List Val) → Except BuffetErr ParamGrid
  | [] => .error .indexError
  | v0 :: rest =>
    if (v0 :: rest).all (fun v => v.length = v0.length) then .ok ⟨names, v0 :: rest⟩
    else .error .assertError

/-- The two modes of `ParamGrid.__init__`: in meshgrid mode, first expand
`nd_meshgrid(*values)` and flatten each component. -/
def mkParamGrid (names : List String) (values : List (List Val)) (meshgrid : Bool) :
    Except BuffetErr ParamGrid :=
  mkParamGridAux names (if meshgrid then (nd_meshgrid values).map NdArr.flat else values)

/-- `ParamGrid.__getitem__(i)` = `{n: v[i] for n, v in zip(names, values)}`
(grid.py lines 24-26); `none` when some zipped value sequence has no
position `i` (Python IndexError). -/
def getItemOpt (g : ParamGrid) (i : Nat) : Option TaskDict :=
  let zs := g.names.zip g.values
  if zs.all (fun nv => i < nv.2.length) then
    some (zs.map (fun nv => (nv.1, nv.2.getD i (Val.int 0))))
  else none

/-- Total variant of `getItemOpt` used only in specification-side
definitions. -/
def getItemD (g : ParamGrid) (i : Nat) : TaskDict := (getItemOpt g i).getD []

/-- `ParamGrid.__eq__` (grid.py lines 32-37): compare the name lists
elementwise, and for each `i < self.nparams` compare `comp.values[i]`
against `self.values[i]` with `tasks_eq`.  The subscripts `values[i]`
raise IndexError when either grid has fewer value sequences than
`self.nparams`; `util.tasks_eq` on two `ParamGrid` objects falls through
every `isinstance`/`__len__` test and lands on `a == b`, i.e. this method. -/
def grids_eq (s c : ParamGrid) : Except BuffetErr Bool :=
  if s.nparams ≤ s.values.length ∧ s.nparams ≤ c.values.length then
    .ok ((s.names == c.names) &&
      (List.range s.nparams).all (fun i =>
        tasks_eq (.vlist (c.values.getD i [])) (.vlist (s.values.getD i []))))
  else .error .indexError

/-- `free = np.where(self.task_status == TASK_AVAILABLE)[0]` followed by
`free[0]` (buffet.py lines 318-322): the lowest index whose status equals
`TASK_AVAILABLE`, or `none` when `len(free) == 0`. -/
def firstAvailable : List Int → Option Nat
  | [] => none
  | s :: rest =>
    if s == TASK_AVAILABLE then some 0 else (firstAvailable rest).map (· + 1)

/-- `TaskBuffet.get_next_free` (buffet.py lines 313-325).  Input: the
loaded grid (`self.task_params`, possibly `None`) and status array; output:
the returned pair (or the raised exception), the status array afterwards
and whether `dump_buffet` ran.  Note the source order: the status entry is
set to `TASK_RUNNING` and the buffet dumped *before* `self.task_params[i]`
is subscripted. -/
def get_next_free (params : Option ParamGrid) (task_status : List Int) :
    Except BuffetErr (Int × TaskDict) × List Int × Bool :=
  match params with
  | none => (.error .uninitializedGrid, task_status, false)
  | some g =>
    match firstAvailable task_status with
    | none => (.ok (-1, []), task_status, false)
    | some i =>
      let st' := task_status.set i TASK_RUNNING
      match getItemOpt g i with
      | some t => (.ok ((i : Int), t), st', true)
      | none => (.error .indexError, st', true)

/-- `TaskBuffet.update_task` (buffet.py lines 327-329):
`self.task_status[task_i] = status` then dump; a numpy subscript out of
range raises IndexError before any mutation. -/
def update_task (task_status : List Int) (task_i : Nat) (status : Int) :
    Except BuffetErr (List Int) :=
  if task_i < task_status.length then .ok (task_status.set task_i status)
  else .error .indexError

/-- `TaskBuffet.setup_new_buffet` (buffet.py lines 235-248): raise iff
*both* `task_param_names` and `task_param_values` are `None`; otherwise
construct the grid (a `None` argument to `ParamGrid` raises a TypeError
inside the constructor) and create the all-`TASK_AVAILABLE` status array
`np.ones(nvals, dtype=int) * TASK_AVAILABLE`. -/
def setup_new_buffet (names : Option (List String)) (values : Option (List (List Val)))
    (build_grid : Bool) : Except BuffetErr (List Int × ParamGrid) :=
  if names.isNone && values.isNone then .error .uninitializedParams
  else
    match names, values with
    | some ns, some vs => do
      let g ← mkParamGrid ns vs build_grid
      .ok (List.replicate g.nvals TASK_AVAILABLE, g)
    | _, _ => .error .typeError

/-- The `while not util.tasks_eq(saved_p, new_g[i])` scan of
`check_merge_buffets` (buffet.py lines 301-306), searching for the first
`i` whose task dictionary matches `saved_p`.  The source subscripts
`new_g[i]` first (IndexError when out of range, in particular immediately
when `new_g.nvals == 0`), then compares, then increments and raises
"Unable to find match" when `i` reaches `new_g.nvals`.  `fuel` only bounds
the recursion; `new_g.nvals + 1` steps are always enough. -/
def findMatchAux (saved_p : TaskDict) (new_g : ParamGrid) : Nat → Nat → Except BuffetErr Nat
  | _, 0 => .error .mergeNoMatch
  | i, fuel + 1 =>
    match getItemOpt new_g i with
    | none => .error .indexError
    | some t =>
      if dict_eq saved_p t then .ok i
      else if i + 1 = new_g.nvals then .error .mergeNoMatch
      else findMatchAux saved_p new_g (i + 1) fuel

/-- The inner match search of the merge loop, started at `i = 0`. -/
def findMatch (saved_p : TaskDict) (new_g : ParamGrid) : Except BuffetErr Nat :=
  findMatchAux saved_p new_g 0 (new_g.nvals + 1)

/-- The `for p in range(saved_g.nvals)` merge loop of
`check_merge_buffets` (buffet.py lines 299-308), processing saved task
indices `p, p+1, ...` (`fuel` many) into the accumulator status array:
`saved_p = saved_g[p]`; scan for the match `i`; then
`new_task_status[i] = self.task_status[p]` (the right-hand subscript and
the assignment each raise IndexError when out of range). -/
def mergeLoopGo (saved_status : List Int) (saved_g new_g : ParamGrid) :
    Nat → Nat → List Int → Except BuffetErr (List Int)
  | _, 0, acc => .ok acc
  | p, fuel + 1, acc =>
    match getItemOpt saved_g p with
    | none => .error .indexError
    | some saved_p =>
      match findMatch saved_p new_g with
      | .error e => .error e
      | .ok i =>
        match saved_status[p]? with
        | none => .error .indexError
        | some v =>
          if i < acc.length then mergeLoopGo saved_status saved_g new_g (p + 1) fuel (acc.set i v)
          else .error .indexError

/-- The whole merge branch: a fresh all-`TASK_AVAILABLE` status array of
size `new_g.nvals`, filled by the loop over every saved task index. -/
def mergeLoop (saved_status : List Int) (saved_g new_g : ParamGrid) :
    Except BuffetErr (List Int) :=
  mergeLoopGo saved_status saved_g new_g 0 saved_g.nvals
    (List.replicate new_g.nvals TASK_AVAILABLE)

/-- `TaskBuffet.check_merge_buffets` (buffet.py lines 278-311) for a
loaded (non-`None`) saved grid and an already-constructed requested grid:
if `util.tasks_eq(saved_g, new_g)` (which dispatches to
`ParamGrid.__eq__`) holds, return unchanged; else raise when `merge` is
disallowed; else run the merge loop, adopt the requested grid and dump.
Output: status array, grid, and whether `dump_buffet` ran. -/
def check_merge_grids (task_status : List Int) (saved_g new_g : ParamGrid)
    (merge : Bool) : Except BuffetErr (List Int × ParamGrid × Bool) := do
  let eq ← grids_eq saved_g new_g
  if eq then .ok (task_status, saved_g, false)
  else if !merge then .error .configDiff
  else do
    let st ← mergeLoop task_status saved_g new_g
    .ok (st, new_g, true)

/-- `TaskBuffet.check_merge_buffets` including its guards (buffet.py lines
282-285): skipped entirely when no parameter names were passed; otherwise
the requested grid is constructed first, and comparing against a `None`
saved grid reaches `None == new_g`, whose reflected `ParamGrid.__eq__`
dereferences `comp.names` and raises AttributeError. -/
def check_merge_buffets (task_status : List Int) (task_params : Option ParamGrid)
    (names : Option (List String)) (values : List (List Val)) (build_grid : Bool)
    (merge : Bool) : Except BuffetErr (List Int × Option ParamGrid × Bool) :=
  match names with
  | none => .ok (task_status, task_params, false)
  | some ns => do
    let new_g ← mkParamGrid ns values build_grid
    match task_params with
    | none => .error .attributeError
    | some saved_g => do
      let (st, g, dumped) ← check_merge_grids task_status saved_g new_g merge
      .ok (st, some g, dumped)

/-- One pickled value inside the persisted buffet file: `pickle.dump` is
called once with the status array and once with the grid (which can be
`None`). -/
inductive Pickled where
  | pstatus (st : List Int)
  | pgrid (g : ParamGrid)
  | pnone
deriving DecidableEq

/-- `TaskBuffet.dump_buffet` (buffet.py lines 250-254): one stream holding
the status array followed by the grid. -/
def dump_buffet (task_status : List Int) (task_params : Option ParamGrid) : List Pickled :=
  [.pstatus task_status,
   match task_params with
   | some g => .pgrid g
   | none => .pnone]

/-- `TaskBuffet.open_buffet` (buffet.py lines 256-276): the first
`pickle.load` must yield the status array; the second is tried and a
missing/failed second value leaves the grid as `None` (warning only).
Then `check_merge_buffets` runs.  Output as in `check_merge_buffets`. -/
def open_buffet (stream : List Pickled) (names : Option (List String))
    (values : List (List Val)) (build_grid : Bool) :
    Except BuffetErr (List Int × Option ParamGrid × Bool) :=
  match stream with
  | .pstatus st :: rest =>
    let params : Option ParamGrid :=
      match rest with
      | .pgrid g :: _ => some g
      | _ => none
    check_merge_buffets st params names values build_grid true
  | _ => .error .unpickleError

/-- The in-memory pair `(self.task_status, self.task_params)` of a buffet
with a loaded grid. -/
structure BuffetState where
  status : List Int
  grid : ParamGrid
deriving DecidableEq

/-- One mutating store operation of the Buffet Store: a claim
(`get_next_free`), a completion (`update_task i status`), or a
merge-on-resume against requested parameters. -/
inductive StoreOp where
  | claimOp
  | completeOp (i : Nat) (status : Int)
  | mergeReq (names : List String) (values : List (List Val)) (build_grid : Bool)
      (allow_merge : Bool)
deriving DecidableEq

/-- The store-level transition function: how each operation transforms the
persisted `(status, grid)` pair when it does not raise. -/
def storeStep (s : BuffetState) : StoreOp → Except BuffetErr BuffetState
  | .claimOp =>
    match get_next_free (some s.grid) s.status with
    | (.error e, _, _) => .error e
    | (.ok _, st', _) => .ok ⟨st', s.grid⟩
  | .completeOp i v => do
    let st' ← update_task s.status i v
    .ok ⟨st', s.grid⟩
  | .mergeReq ns vs b allow => do
    let new_g ← mkParamGrid ns vs b
    let (st', g', _) ← check_merge_grids s.status s.grid new_g allow
    .ok ⟨st', g'⟩

/-- The data-model invariant of §3: the status array has one entry per
grid task, and every entry is one of the four status constants. -/
def StoreInv (s : BuffetState) : Prop :=
  s.status.length = s.grid.nvals ∧
  ∀ x ∈ s.status, x = TASK_FAILED ∨ x = TASK_SUCCESS ∨ x = TASK_AVAILABLE ∨ x = TASK_RUNNING

/-- The sum of the four per-status counts of a status array. -/
def countSum (l : List Int) : Nat :=
  l.count TASK_SUCCESS + l.count TASK_FAILED + l.count TASK_RUNNING + l.count TASK_AVAILABLE

/-- The §4.2 contract on store operations: `complete(index, status)` is
called with a status in {SUCCESS, FAILED, AVAILABLE} (the worker loop
validates exactly this before calling `update_task`); the other
operations carry no precondition. -/
def opValid : StoreOp → Prop
  | .completeOp _ v => v = TASK_SUCCESS ∨ v = TASK_FAILED ∨ v = TASK_AVAILABLE
  | _ => True

/-- Well-formedness of a grid as established by `ParamGrid.__init__`:
`values[0]` exists and, by the constructor's assert, every value sequence
has length `nvals`. -/
def ParamGrid.wf (g : ParamGrid) : Prop :=
  g.values ≠ [] ∧ ∀ v ∈ g.values, v.length = g.nvals

/-- The observation the parent makes of the supervised child process
(buffet.py lines 155-171): whether `proc.is_alive()` still holds after
`proc.join(timeout=time_left)`, the `proc.exitcode`, and the value the
child pushed through `out_queue` (meaningful when it exited cleanly). -/
structure ChildResult where
  aliveAtTimeout : Bool
  exitcode : Int
  channelValue : Int
deriving DecidableEq

/-- The supervised-subprocess outcome decision (buffet.py lines 162-171):
status to record, and whether `util.kill_proc_tree(proc.pid)` is invoked.
Alive at timeout: `TASK_AVAILABLE` and kill the tree; nonzero exit code:
`TASK_FAILED`; otherwise `out_queue.get()`. -/
def supervise (c : ChildResult) : Int × Bool :=
  if c.aliveAtTimeout then (TASK_AVAILABLE, true)
  else if c.exitcode != 0 then (TASK_FAILED, false)
  else (c.channelValue, false)

/-- A process in the child's descendant tree, identified by pid; the flag
says whether a SIGTERM (`terminate()`) by itself ends it. -/
structure Proc where
  pid : Nat
  diesOnTerminate : Bool
deriving DecidableEq

/-- `util.kill_proc_tree(pid, including_parent)` (util.py lines 4-14) over
the recursive children of the process: `terminate()` each child,
`wait_procs` to partition them into gone and alive, `kill()` every
survivor (SIGKILL cannot be ignored), and finally kill the parent when
`including_parent`.  Result: each child paired with whether it is still
alive afterwards, and whether the parent was killed. -/
def kill_proc_tree (children : List Proc) (including_parent : Bool) :
    List (Proc × Bool) × Bool :=
  let afterTerm := children.map (fun c => (c, !c.diesOnTerminate))
  let alive := afterTerm.filter (fun cb => cb.2)
  let final := afterTerm.map
    (fun cb => (cb.1, if cb.1 ∈ alive.map Prod.fst then false else cb.2))
  (final, including_parent)

/-- `task_p['time_left'] = time_left` (buffet.py line 152): Python dict
assignment, updating an existing key in place or appending a new one. -/
def dictSet (d : TaskDict) (k : String) (v : Val) : TaskDict :=
  if d.any (fun kv => kv.1 == k) then
    d.map (fun kv => if kv.1 == k then (kv.1, v) else kv)
  else d ++ [(k, v)]

/-- The body of the `try:` block of `run` (buffet.py lines 155-173): the
raw status produced by executing the claimed task.  `.error ()` is a
raised exception.  In `mp_timeout` mode the parent never sees the child's
exception directly; note `proc.join(timeout=time_left)` references
`time_left`, which was never assigned when `time_budget is None` - a
NameError inside the `try:`, i.e. a raised exception. -/
def execResult (mp : Bool) (tf : TaskDict → Except Unit Int)
    (child : TaskDict → Int → ChildResult) (time_left : Option Int)
    (task_p : TaskDict) : Except Unit Int :=
  if mp then
    match time_left with
    | none => .error ()
    | some tl => .ok (supervise (child task_p tl)).1
  else tf task_p

/-- The effect of one pass through the `while task_i >= 0` body of `run`
(buffet.py lines 132-188) on the persisted buffet:
* stop (`break`) with `out_of_time = True`;
* `task_i < 0`: `continue`, after which the loop condition fails (queue
  drained);
* a task was claimed, executed and recorded - iterate again;
* an exception propagated out of `run`. -/
inductive IterResult where
  | stopOutOfTime (st : List Int) (g : ParamGrid)
  | drained (st : List Int) (g : ParamGrid)
  | nextIter (st : List Int) (g : ParamGrid)
  | aborted (e : BuffetErr) (st : List Int) (g : ParamGrid)
deriving DecidableEq

/-- Everything in one loop pass after the time-budget check: open the
buffet and merge (`TaskBuffet.__enter__` with the worker's names/values),
claim with `get_next_free`, execute per mode, validate the returned
status (`if status not in [TASK_FAILED, TASK_SUCCESS, TASK_AVAILABLE]:
raise` - inside the `try:`, so the failure policy applies to it), and
record with `update_task`. -/
def runIterRest (names : List String) (values : List (List Val)) (build_grid : Bool)
    (foe : Bool) (mp : Bool) (tf : TaskDict → Except Unit Int)
    (child : TaskDict → Int → ChildResult) (time_left : Option Int)
    (st : List Int) (g : ParamGrid) : IterResult :=
  match mkParamGrid names values build_grid with
  | .error e => .aborted e st g
  | .ok new_g =>
    match check_merge_grids st g new_g true with
    | .error e => .aborted e st g
    | .ok (st1, g1, _) =>
      match get_next_free (some g1) st1 with
      | (.error e, st2, _) => .aborted e st2 g1
      | (.ok (ti, task_p0), st2, _) =>
        if ti < 0 then .drained st2 g1
        else
          let task_p :=
            match time_left with
            | some tl => if !mp then dictSet task_p0 "time_left" (.int tl) else task_p0
            | none => task_p0
          match execResult mp tf child time_left task_p with
          | .error _ =>
            if foe then .aborted .taskError st2 g1
            else
              match update_task st2 ti.toNat TASK_FAILED with
              | .ok st3 => .nextIter st3 g1
              | .error e => .aborted e st2 g1
          | .ok status =>
            if status = TASK_FAILED ∨ status = TASK_SUCCESS ∨ status = TASK_AVAILABLE then
              match update_task st2 ti.toNat status with
              | .ok st3 => .nextIter st3 g1
              | .error e => .aborted e st2 g1
            else
              if foe then .aborted .statusError st2 g1
              else
                match update_task st2 ti.toNat TASK_FAILED with
                | .ok st3 => .nextIter st3 g1
                | .error e => .aborted e st2 g1

/-- One full pass of the worker loop, including the time-budget check at
the top (buffet.py lines 133-138): with a budget, `time_left` is the
budget minus the elapsed wall-clock time at this iteration, and the loop
`break`s exactly when `time_left < 0` (strictly). -/
def runIter (names : List String) (values : List (List Val)) (build_grid : Bool)
    (foe : Bool) (budget : Option Int) (mp : Bool)
    (tf : TaskDict → Except Unit Int) (child : TaskDict → Int → ChildResult)
    (elapsed : Int) (st : List Int) (g : ParamGrid) : IterResult :=
  match budget with
  | some b =>
    let tl := b - elapsed
    if tl < 0 then .stopOutOfTime st g
    else runIterRest names values build_grid foe mp tf child (some tl) st g
  | none => runIterRest names values build_grid foe mp tf child none st g

/-- Overall outcome of `run` (buffet.py lines 190-195): `True` ("Ran out
of time"), `False` ("Done executing all tasks in the buffet"), a
propagated exception, or exhaustion of the modelled schedule of wall-clock
readings. -/
inductive RunResult where
  | ranOutOfTime (st : List Int) (g : ParamGrid)
  | doneAll (st : List Int) (g : ParamGrid)
  | exn (e : BuffetErr) (st : List Int) (g : ParamGrid)
  | noFuel (st : List Int) (g : ParamGrid)
deriving DecidableEq

/-- The `while task_i >= 0` loop of `run`, driven by one wall-clock
elapsed-time reading per iteration. -/
def runLoop (names : List String) (values : List (List Val)) (build_grid : Bool)
    (foe : Bool) (budget : Option Int) (mp : Bool)
    (tf : TaskDict → Except Unit Int) (child : TaskDict → Int → ChildResult) :
    List Int → List Int → ParamGrid → RunResult
  | [], st, g => .noFuel st g
  | e :: es, st, g =>
    match runIter names values build_grid foe budget mp tf child e st g with
    | .stopOutOfTime st' g' => .ranOutOfTime st' g'
    | .drained st' g' => .doneAll st' g'
    | .aborted err st' g' => .exn err st' g'
    | .nextIter st' g' => runLoop names values build_grid foe budget mp tf child es st' g'

/-- Specification-side description of the claim's merge matching, written
from the spec's words: the first index of the requested grid whose
parameter dictionary is deep-equal to the given one. -/
def firstMatch (p : TaskDict) (g : ParamGrid) : Option Nat :=
  (List.range g.nvals).find? (fun i => dict_eq p (getItemD g i))

/-- Specification-side description of the merge loop, written from the
spec's words: process the saved task indices in order; give the saved
status of `p` to the first requested index deep-equal to saved task `p`;
`none` when some saved task has no match. -/
def mergeSpecOver (saved_status : List Int) (saved_g new_g : ParamGrid) :
    List Nat → List Int → Option (List Int)
  | [], acc => some acc
  | p :: ps, acc =>
    match firstMatch (getItemD saved_g p) new_g with
    | some i =>
      mergeSpecOver saved_status saved_g new_g ps (acc.set i (saved_status.getD p TASK_AVAILABLE))
    | none => none

/-- Specification-side merge: start from an all-`TASK_AVAILABLE` array
sized to the requested grid and fill it from every saved task in order. -/
def mergeSpec (saved_status : List Int) (saved_g new_g : ParamGrid) : Option (List Int) :=
  mergeSpecOver saved_status saved_g new_g (List.range saved_g.nvals)
    (List.replicate new_g.nvals TASK_AVAILABLE)

/-! Helper lemmas about the embedded operations. -/

lemma mkParamGridAux_error_cases (ns : List String) (pg : List (List Val))
    (e : BuffetErr) (h : mkParamGridAux ns pg = .error e) :
    e = .indexError ∨ e = .assertError := by
  cases pg with
  | nil =>
    injection h with h1
    exact Or.inl h1.symm
  | cons v0 rest =>
    by_cases hc : ((v0 :: rest).all fun v => decide (v.length = v0.length)) = true
    · simp only [mkParamGridAux] at h
      rw [if_pos hc] at h
      exact absurd h (by simp)
    · simp only [mkParamGridAux] at h
      rw [if_neg hc] at h
      injection h with h1
      exact Or.inr h1.symm

lemma mkParamGrid_error_cases (ns : List String) (vs : List (List Val)) (b : Bool)
    (e : BuffetErr) (h : mkParamGrid ns vs b = .error e) :
    e = .indexError ∨ e = .assertError := by
  exact mkParamGridAux_error_cases ns _ e h

lemma firstAvailable_none_iff (st : List Int) :
    firstAvailable st = none ↔ ∀ x ∈ st, x ≠ TASK_AVAILABLE := by
  induction st with
  | nil => simp [firstAvailable]
  | cons s rest ih =>
    by_cases hs : s = TASK_AVAILABLE
    · subst hs; simp [firstAvailable]
    · have hbe : (s == TASK_AVAILABLE) = false := by
        simpa using hs
      simp only [firstAvailable, hbe, Bool.false_eq_true, if_false, Option.map_eq_none',
        List.mem_cons]
      rw [ih]
      constructor
      · intro hall x hx
        rcases hx with hx | hx
        · subst hx; exact hs
        · exact hall x hx
      · intro hall x hx
        exact hall x (Or.inr hx)

lemma firstAvailable_some_iff (st : List Int) (i : Nat) :
    firstAvailable st = some i ↔
      st[i]? = some TASK_AVAILABLE ∧ ∀ j, j < i → st[j]? ≠ some TASK_AVAILABLE := by
  induction st generalizing i with
  | nil => simp [firstAvailable]
  | cons s rest ih =>
    by_cases hs : s = TASK_AVAILABLE
    · subst hs
      constructor
      · intro h
        have h0 : i = 0 := by
          have := h
          simp [firstAvailable] at this
          omega
        subst h0
        simp
      · rintro ⟨h1, h2⟩
        cases i with
        | zero => simp [firstAvailable]
        | succ n =>
          exact absurd (show (TASK_AVAILABLE :: rest)[0]? = some TASK_AVAILABLE by simp)
            (h2 0 (Nat.succ_pos n))
    · have hbe : (s == TASK_AVAILABLE) = false := by
        simpa using hs
      cases i with
      | zero =>
        constructor
        · intro h
          exfalso
          rcases hmap : firstAvailable rest with _ | m
          · simp [firstAvailable, hbe, hmap] at h
          · simp [firstAvailable, hbe, hmap] at h
        · rintro ⟨h1, h2⟩
          exfalso
          exact hs (by simpa using h1)
      | succ n =>
        constructor
        · intro h
          have hrest : firstAvailable rest = some n := by
            rcases hmap : firstAvailable rest with _ | m
            · simp [firstAvailable, hbe, hmap] at h
            · have hmn : m + 1 = n + 1 := by
                simpa [firstAvailable, hbe, hmap] using h
              have hmn2 : m = n := by omega
              rw [hmn2]
          rcases (ih n).mp hrest with ⟨h1, h2⟩
          refine ⟨by simpa using h1, ?_⟩
          intro j hj
          cases j with
          | zero =>
            intro hc
            exact hs (by simpa using hc)
          | succ m =>
            have := h2 m (by omega)
            simpa using this
        · rintro ⟨h1, h2⟩
          have hrest : firstAvailable rest = some n := by
            refine (ih n).mpr ⟨by simpa using h1, ?_⟩
            intro j hj hc
            exact h2 (j + 1) (by omega) (by simpa using hc)
          simp [firstAvailable, hbe, hrest]

lemma firstAvailable_some_lt (st : List Int) (i : Nat)
    (h : firstAvailable st = some i) : i < st.length := by
  have h1 := ((firstAvailable_some_iff st i).mp h).1
  by_cases hlt : i < st.length
  · exact hlt
  · rw [List.getElem?_eq_none (by omega)] at h1
    cases h1

lemma getItemOpt_isSome (g : ParamGrid) (i : Nat) (hwf : g.wf) (hi : i < g.nvals) :
    getItemOpt g i =
      some ((g.names.zip g.values).map (fun nv => (nv.1, nv.2.getD i (Val.int 0)))) := by
  unfold getItemOpt
  have hall : ((g.names.zip g.values).all fun nv => decide (i < nv.2.length)) = true := by
    rw [List.all_eq_true]
    intro nv hnv
    have hmem : nv.2 ∈ g.values := (List.of_mem_zip hnv).2
    rw [decide_eq_true_eq, hwf.2 _ hmem]
    exact hi
  simp [hall]

lemma getItemOpt_eq_getItemD (g : ParamGrid) (i : Nat) (hwf : g.wf) (hi : i < g.nvals) :
    getItemOpt g i = some (getItemD g i) := by
  rw [getItemD, getItemOpt_isSome g i hwf hi]
  rfl

lemma get_next_free_ok_inv (g : ParamGrid) (st st2 : List Int) (ti : Int) (tp : TaskDict)
    (d : Bool) (h : get_next_free (some g) st = (.ok (ti, tp), st2, d)) (hti : 0 ≤ ti) :
    ∃ i : Nat, ti = (i : Int) ∧ firstAvailable st = some i ∧
      st2 = st.set i TASK_RUNNING ∧ d = true ∧ getItemOpt g i = some tp := by
  unfold get_next_free at h
  dsimp only at h
  rcases hfa : firstAvailable st with _ | i
  · rw [hfa] at h
    dsimp only at h
    injection h with h1 h2
    injection h1 with h1
    injection h1 with ha hb
    omega
  · rw [hfa] at h
    dsimp only at h
    rcases hgi : getItemOpt g i with _ | t
    · rw [hgi] at h
      dsimp only at h
      injection h with h1 _
      cases h1
    · rw [hgi] at h
      dsimp only at h
      injection h with h1 h2
      injection h1 with h1
      injection h1 with ha hb
      injection h2 with h2 h3
      exact ⟨i, ha.symm, rfl, h2.symm, h3.symm, by rw [hgi, hb]⟩

@[simp] lemma exceptBind_ok {ε α β : Type} (a : α) (f : α → Except ε β) :
    (Except.ok a >>= f) = f a := rfl

@[simp] lemma exceptBind_err {ε α β : Type} (e : ε) (f : α → Except ε β) :
    ((Except.error e : Except ε α) >>= f) = .error e := rfl

@[simp] lemma exceptPure {ε α : Type} (a : α) : (pure a : Except ε α) = .ok a := rfl

lemma check_merge_grids_eq_noop (st : List Int) (saved_g new_g : ParamGrid) (allow : Bool)
    (heq : grids_eq saved_g new_g = .ok true) :
    check_merge_grids st saved_g new_g allow = .ok (st, saved_g, false) := by
  unfold check_merge_grids
  rw [heq]
  rfl

/-- Claim C10: with no persisted unit, `setup_new_buffet` raises its
uninitialized-parameters error exactly when *both* the parameter names and
the parameter values are `None`; when exactly one of the two is supplied
(here: names given, values `None`) the guard does not fire and creation
proceeds past the check into grid construction, which then fails
differently (a TypeError inside `ParamGrid`). -/
theorem c10_uninit_guard :
    (∀ (n : Option (List String)) (v : Option (List (List Val))) (b : Bool),
      setup_new_buffet n v b = .error .uninitializedParams ↔ n = none ∧ v = none) ∧
    setup_new_buffet (some ["a"]) none false = .error .typeError ∧
    BuffetErr.typeError ≠ BuffetErr.uninitializedParams := by
  refine ⟨?_, by decide, by decide⟩
  intro n v b
  constructor
  · intro h
    cases n with
    | none =>
      cases v with
      | none => exact ⟨rfl, rfl⟩
      | some vs => simp [setup_new_buffet] at h
    | some ns =>
      cases v with
      | none => simp [setup_new_buffet] at h
      | some vs =>
        simp only [setup_new_buffet, Option.isNone_some, Bool.and_false, Bool.false_and,
          Bool.false_eq_true, if_false] at h
        rcases hmk : mkParamGrid ns vs b with e | g
        · rw [hmk] at h
          simp at h
          rcases mkParamGridAux_error_cases ns _ e hmk with h1 | h1 <;> simp [h1] at h
        · rw [hmk] at h
          simp at h
  · rintro ⟨rfl, rfl⟩
    rfl

/-- Claim C10 witness: the iff applied at the concrete both-`None` input. -/
theorem c10_uninit_guard_witness :
    setup_new_buffet none none false = .error .uninitializedParams :=
  (c10_uninit_guard.1 none none false).mpr ⟨rfl, rfl⟩

/-- Claim C2: `get_next_free` raises the uninitialized-grid error when no
grid is loaded; with a grid, if no status entry equals `TASK_AVAILABLE` it
returns `(-1, {})` and changes nothing (no dump); and if `i` is the lowest
index whose entry is `TASK_AVAILABLE`, it sets entry `i` to
`TASK_RUNNING`, dumps, and returns `i` with the grid's parameter
dictionary for `i` (stated for states satisfying the §3 length invariant
over a well-formed grid). -/
theorem c2_claim_next (st : List Int) (g : ParamGrid) :
    (∀ st0 : List Int, get_next_free none st0 = (.error .uninitializedGrid, st0, false)) ∧
    ((∀ x ∈ st, x ≠ TASK_AVAILABLE) → get_next_free (some g) st = (.ok (-1, []), st, false)) ∧
    (∀ i : Nat, g.wf → st.length = g.nvals →
      st[i]? = some TASK_AVAILABLE → (∀ j, j < i → st[j]? ≠ some TASK_AVAILABLE) →
      get_next_free (some g) st =
        (.ok ((i : Int), getItemD g i), st.set i TASK_RUNNING, true)) := by
  refine ⟨fun st0 => rfl, ?_, ?_⟩
  · intro h
    unfold get_next_free
    rw [(firstAvailable_none_iff st).mpr h]
  · intro i hwf hlen h1 h2
    have hfa : firstAvailable st = some i := (firstAvailable_some_iff st i).mpr ⟨h1, h2⟩
    have hlt : i < st.length := firstAvailable_some_lt st i hfa
    have hio : getItemOpt g i = some (getItemD g i) :=
      getItemOpt_eq_getItemD g i hwf (by omega)
    unfold get_next_free
    rw [hfa]
    simp [hio]

/-- Claim C2 witness: the three conclusions at concrete inputs. -/
theorem c2_claim_next_witness :
    get_next_free none [TASK_AVAILABLE] =
      (.error .uninitializedGrid, [TASK_AVAILABLE], false) ∧
    get_next_free (some ⟨["a"], [[.int 0]]⟩) [TASK_SUCCESS] =
      (.ok (-1, []), [TASK_SUCCESS], false) ∧
    get_next_free (some ⟨["a"], [[.int 0]]⟩) [TASK_AVAILABLE] =
      (.ok (0, [("a", .int 0)]), [TASK_RUNNING], true) := by
  obtain ⟨h1, h2, h3⟩ := c2_claim_next [TASK_SUCCESS] (⟨["a"], [[.int 0]]⟩ : ParamGrid)
  obtain ⟨-, -, h3'⟩ := c2_claim_next [TASK_AVAILABLE] (⟨["a"], [[.int 0]]⟩ : ParamGrid)
  refine ⟨h1 [TASK_AVAILABLE], h2 (by decide), ?_⟩
  have := h3' 0 ⟨by decide, by decide⟩ (by decide) (by decide)
    (fun j hj => absurd hj (by omega))
  exact this.trans (by decide)

/-- Claim C4 (amended): merging against a requested grid that the code's
structural grid equality (`ParamGrid.__eq__` via `tasks_eq`: same names in
the same order, deep-equal value sequences, and a value sequence available
for every name) accepts is a no-op: same status array, same (saved) grid,
and nothing is dumped. -/
theorem c4_merge_noop (st : List Int) (saved_g new_g : ParamGrid) (allow : Bool)
    (heq : grids_eq saved_g new_g = .ok true) :
    check_merge_grids st saved_g new_g allow = .ok (st, saved_g, false) :=
  check_merge_grids_eq_noop st saved_g new_g allow heq

/-- Claim C4 witness: a concrete self-merge that is a no-op. -/
theorem c4_merge_noop_witness :
    check_merge_grids [TASK_RUNNING] ⟨["a"], [[.int 0]]⟩ ⟨["a"], [[.int 0]]⟩ true =
      .ok ([TASK_RUNNING], ⟨["a"], [[.int 0]]⟩, false) :=
  c4_merge_noop [TASK_RUNNING] ⟨["a"], [[.int 0]]⟩ ⟨["a"], [[.int 0]]⟩ true (by decide)

/-- Claim C4 counterexample: the buffet state whose grid has two names
but only one value sequence is constructible by `setup_new_buffet`, and
merging it against a structurally identical requested grid (same names in
the same order, deep-equal value sequences) raises an IndexError inside
`ParamGrid.__eq__` (`comp.values[1]`) instead of being a no-op. -/
theorem c4_merge_noop_counterexample :
    setup_new_buffet (some ["a", "b"]) (some [[.int 0]]) false =
      .ok ([TASK_AVAILABLE], ⟨["a", "b"], [[.int 0]]⟩) ∧
    check_merge_grids [TASK_AVAILABLE] ⟨["a", "b"], [[.int 0]]⟩ ⟨["a", "b"], [[.int 0]]⟩ true =
      .error .indexError ∧
    (Except.error .indexError ≠
      (.ok ([TASK_AVAILABLE], (⟨["a", "b"], [[.int 0]]⟩ : ParamGrid), false) :
        Except BuffetErr (List Int × ParamGrid × Bool))) := by
  refine ⟨by decide, by decide, by decide⟩

/-- Claim C9: persisting a buffet state and loading it back decodes the
same two values the dump wrote (status array first, then grid).  With no
requested parameters no merge runs and the loaded state is identical; with
requested parameters whose grid the saved grid structurally equals, the
merge is a no-op and the loaded state is again identical, with no new
dump. -/
theorem c9_roundtrip (vals : List (List Val)) (b : Bool) :
    (∀ (st : List Int) (params : Option ParamGrid),
      open_buffet (dump_buffet st params) none vals b = .ok (st, params, false)) ∧
    (∀ (st : List Int) (g new_g : ParamGrid) (ns : List String),
      mkParamGrid ns vals b = .ok new_g → grids_eq g new_g = .ok true →
      open_buffet (dump_buffet st (some g)) (some ns) vals b = .ok (st, some g, false)) := by
  constructor
  · intro st params
    cases params <;> rfl
  · intro st g new_g ns hmk heq
    simp only [open_buffet, dump_buffet, check_merge_buffets, hmk, exceptBind_ok,
      check_merge_grids_eq_noop st g new_g true heq]

/-- Claim C9 witness: round trips at concrete states, with and without a
structurally equal requested grid. -/
theorem c9_roundtrip_witness :
    open_buffet (dump_buffet [TASK_FAILED] none) none [[.int 0]] false =
      .ok ([TASK_FAILED], none, false) ∧
    open_buffet (dump_buffet [TASK_RUNNING] (some ⟨["a"], [[.int 0]]⟩)) (some ["a"])
      [[.int 0]] false = .ok ([TASK_RUNNING], some ⟨["a"], [[.int 0]]⟩, false) := by
  refine ⟨(c9_roundtrip [[.int 0]] false).1 [TASK_FAILED] none, ?_⟩
  exact (c9_roundtrip [[.int 0]] false).2 [TASK_RUNNING] ⟨["a"], [[.int 0]]⟩
    ⟨["a"], [[.int 0]]⟩ ["a"] (by decide) (by decide)

lemma countSum_eq_length (l : List Int)
    (h : ∀ x ∈ l, x = TASK_FAILED ∨ x = TASK_SUCCESS ∨ x = TASK_AVAILABLE ∨ x = TASK_RUNNING) :
    countSum l = l.length := by
  induction l with
  | nil => rfl
  | cons a l ih =>
    have ha := h a (by simp)
    have ihl := ih (fun x hx => h x (by simp [hx]))
    rcases ha with ha | ha | ha | ha <;> subst ha <;>
      simp only [countSum, List.count_cons, List.length_cons] at ihl ⊢ <;>
      simp only [TASK_FAILED, TASK_SUCCESS, TASK_AVAILABLE, TASK_RUNNING] at ihl ⊢ <;>
      norm_num <;> omega

lemma mergeLoopGo_preserves (saved_status : List Int) (saved_g new_g : ParamGrid)
    (P : Int → Prop) (hsaved : ∀ x ∈ saved_status, P x) :
    ∀ (fuel p : Nat) (acc out : List Int), (∀ x ∈ acc, P x) →
      mergeLoopGo saved_status saved_g new_g p fuel acc = .ok out →
      out.length = acc.length ∧ ∀ x ∈ out, P x := by
  intro fuel
  induction fuel with
  | zero =>
    intro p acc out hacc h
    injection h with h1
    subst h1
    exact ⟨rfl, hacc⟩
  | succ n ih =>
    intro p acc out hacc h
    unfold mergeLoopGo at h
    rcases hgi : getItemOpt saved_g p with _ | saved_p <;> rw [hgi] at h <;> dsimp only at h
    · simp at h
    · rcases hfm : findMatch saved_p new_g with e | i <;> rw [hfm] at h <;> dsimp only at h
      · simp at h
      · rcases hv : saved_status[p]? with _ | v <;> rw [hv] at h <;> dsimp only at h
        · simp at h
        · split at h
          · have hvP : P v := hsaved v (List.getElem?_mem hv)
            have := ih (p + 1) (acc.set i v) out
              (fun x hx => (List.mem_or_eq_of_mem_set hx).elim (hacc x) (fun hxv => hxv ▸ hvP)) h
            simpa using this
          · simp at h

/-- Claim C7: after buffet creation and after every non-raising store
operation (claim, complete with a §4.2-valid status, merge), the status
array has exactly one entry per grid task, every entry is one of the four
status constants, and consequently the four per-status counts sum to the
task count. -/
theorem c7_status_invariant :
    (∀ (ns : List String) (vs : List (List Val)) (b : Bool) (st0 : List Int) (g : ParamGrid),
      setup_new_buffet (some ns) (some vs) b = .ok (st0, g) →
      StoreInv ⟨st0, g⟩ ∧ countSum st0 = g.nvals) ∧
    (∀ (s s' : BuffetState) (op : StoreOp), StoreInv s → opValid op →
      storeStep s op = .ok s' → StoreInv s' ∧ countSum s'.status = s'.grid.nvals) := by
  have hcnt : ∀ t : BuffetState, StoreInv t → countSum t.status = t.grid.nvals := by
    intro t ht
    rw [countSum_eq_length t.status ht.2]
    exact ht.1
  constructor
  · intro ns vs b st0 g h
    simp only [setup_new_buffet, Option.isNone_some, Bool.and_self, Bool.false_eq_true,
      if_false, Bool.and_false] at h
    rcases hmk : mkParamGrid ns vs b with e | g0 <;> rw [hmk] at h
    · simp at h
    · simp only [exceptBind_ok] at h
      injection h with h1
      injection h1 with h1 h2
      subst h2
      subst h1
      have hinv : StoreInv ⟨List.replicate g0.nvals TASK_AVAILABLE, g0⟩ := by
        refine ⟨by simp, ?_⟩
        intro x hx
        rcases List.mem_replicate.mp hx with ⟨-, rfl⟩
        right; right; left; rfl
      exact ⟨hinv, hcnt _ hinv⟩
  · intro s s' op hinv hop h
    have main : StoreInv s' := by
      cases op with
      | claimOp =>
        unfold storeStep at h
        dsimp only at h
        rcases hfa : firstAvailable s.status with _ | i
        · rw [show get_next_free (some s.grid) s.status = (.ok (-1, []), s.status, false) by
            unfold get_next_free; rw [hfa]] at h
          dsimp only at h
          injection h with h1
          subst h1
          exact hinv
        · have hlt : i < s.status.length := firstAvailable_some_lt _ _ hfa
          rcases hgi : getItemOpt s.grid i with _ | t
          · rw [show get_next_free (some s.grid) s.status =
              (.error .indexError, s.status.set i TASK_RUNNING, true) by
                unfold get_next_free; rw [hfa]; dsimp only; rw [hgi]] at h
            dsimp only at h
            simp at h
          · rw [show get_next_free (some s.grid) s.status =
              (.ok ((i : Int), t), s.status.set i TASK_RUNNING, true) by
                unfold get_next_free; rw [hfa]; dsimp only; rw [hgi]] at h
            dsimp only at h
            injection h with h1
            subst h1
            refine ⟨by simpa using hinv.1, ?_⟩
            intro x hx
            rcases List.mem_or_eq_of_mem_set hx with hx | hx
            · exact hinv.2 x hx
            · subst hx; right; right; right; rfl
      | completeOp i v =>
        unfold storeStep at h
        dsimp only at h
        unfold update_task at h
        split at h
        · simp only [exceptBind_ok] at h
          injection h with h1
          subst h1
          refine ⟨by simpa using hinv.1, ?_⟩
          intro x hx
          rcases List.mem_or_eq_of_mem_set hx with hx | hx
          · exact hinv.2 x hx
          · subst hx
            rcases hop with hv | hv | hv <;> subst hv
            · right; left; rfl
            · left; rfl
            · right; right; left; rfl
        · simp at h
      | mergeReq ns vs b allow =>
        unfold storeStep at h
        dsimp only at h
        rcases hmk : mkParamGrid ns vs b with e | new_g <;> rw [hmk] at h
        · simp at h
        · simp only [exceptBind_ok] at h
          unfold check_merge_grids at h
          rcases hge : grids_eq s.grid new_g with e | eqv <;> rw [hge] at h
          · simp at h
          · simp only [exceptBind_ok] at h
            rcases eqv with _ | _
            · simp only [Bool.false_eq_true, if_false] at h
              rcases hal : allow with _ | _ <;> subst hal
              · simp at h
              · simp only [Bool.not_true, Bool.false_eq_true, if_false] at h
                rcases hml : mergeLoop s.status s.grid new_g with e | ms <;> rw [hml] at h
                · simp at h
                · simp only [exceptBind_ok] at h
                  injection h with h1
                  subst h1
                  unfold mergeLoop at hml
                  have hpres := mergeLoopGo_preserves s.status s.grid new_g
                    (fun x => x = TASK_FAILED ∨ x = TASK_SUCCESS ∨ x = TASK_AVAILABLE ∨
                      x = TASK_RUNNING)
                    hinv.2 s.grid.nvals 0 (List.replicate new_g.nvals TASK_AVAILABLE) ms
                    (fun x hx => by
                      rcases List.mem_replicate.mp hx with ⟨-, rfl⟩
                      right; right; left; rfl) hml
                  refine ⟨?_, hpres.2⟩
                  simpa using hpres.1
            · simp only [if_true] at h
              injection h with h1
              subst h1
              exact hinv
    exact ⟨main, hcnt _ main⟩

/-- Claim C7 witness: creation and a complete operation at concrete
inputs. -/
theorem c7_status_invariant_witness :
    (StoreInv ⟨[TASK_AVAILABLE], ⟨["a"], [[.int 0]]⟩⟩ ∧
      countSum [TASK_AVAILABLE] = (⟨["a"], [[.int 0]]⟩ : ParamGrid).nvals) ∧
    (StoreInv ⟨[TASK_SUCCESS], ⟨["a"], [[.int 0]]⟩⟩ ∧
      countSum [TASK_SUCCESS] = (⟨["a"], [[.int 0]]⟩ : ParamGrid).nvals) := by
  constructor
  · exact c7_status_invariant.1 ["a"] [[.int 0]] false [TASK_AVAILABLE] ⟨["a"], [[.int 0]]⟩
      (by decide)
  · exact c7_status_invariant.2 ⟨[TASK_RUNNING], ⟨["a"], [[.int 0]]⟩⟩
      ⟨[TASK_SUCCESS], ⟨["a"], [[.int 0]]⟩⟩ (.completeOp 0 TASK_SUCCESS)
      ⟨by decide, by decide⟩ (Or.inl rfl) (by decide)

lemma update_task_ok (st : List Int) (i : Nat) (v : Int) (h : i < st.length) :
    update_task st i v = .ok (st.set i v) := by
  unfold update_task
  rw [if_pos h]

lemma execResult_inproc (tf : TaskDict → Except Unit Int) (child : TaskDict → Int → ChildResult)
    (tl : Option Int) (task_p : TaskDict) : execResult false tf child tl task_p = tf task_p := rfl

lemma execResult_mp (tf : TaskDict → Except Unit Int) (child : TaskDict → Int → ChildResult)
    (tl : Int) (task_p : TaskDict) :
    execResult true tf child (some tl) task_p = .ok (supervise (child task_p tl)).1 := rfl

lemma runLoop_cons (names : List String) (values : List (List Val)) (build : Bool)
    (foe : Bool) (budget : Option Int) (mp : Bool) (tf : TaskDict → Except Unit Int)
    (child : TaskDict → Int → ChildResult) (e : Int) (es : List Int) (st : List Int)
    (g : ParamGrid) :
    runLoop names values build foe budget mp tf child (e :: es) st g =
      match runIter names values build foe budget mp tf child e st g with
      | .stopOutOfTime st' g' => .ranOutOfTime st' g'
      | .drained st' g' => .doneAll st' g'
      | .aborted err st' g' => .exn err st' g'
      | .nextIter st' g' => runLoop names values build foe budget mp tf child es st' g' := by
  rw [runLoop]

lemma runIter_budget_none (names : List String) (values : List (List Val)) (build : Bool)
    (foe mp : Bool) (tf : TaskDict → Except Unit Int) (child : TaskDict → Int → ChildResult)
    (elapsed : Int) (st : List Int) (g : ParamGrid) :
    runIter names values build foe none mp tf child elapsed st g =
      runIterRest names values build foe mp tf child none st g := rfl

lemma runIter_budget_some (names : List String) (values : List (List Val)) (build : Bool)
    (foe mp : Bool) (tf : TaskDict → Except Unit Int) (child : TaskDict → Int → ChildResult)
    (b elapsed : Int) (st : List Int) (g : ParamGrid) (h : ¬ b - elapsed < 0) :
    runIter names values build foe (some b) mp tf child elapsed st g =
      runIterRest names values build foe mp tf child (some (b - elapsed)) st g := by
  unfold runIter
  dsimp only
  rw [if_neg h]

lemma runIter_budget_stop (names : List String) (values : List (List Val)) (build : Bool)
    (foe mp : Bool) (tf : TaskDict → Except Unit Int) (child : TaskDict → Int → ChildResult)
    (b elapsed : Int) (st : List Int) (g : ParamGrid) (h : b - elapsed < 0) :
    runIter names values build foe (some b) mp tf child elapsed st g = .stopOutOfTime st g := by
  unfold runIter
  dsimp only
  rw [if_pos h]

lemma runIterRest_exec (names : List String) (values : List (List Val)) (build : Bool)
    (foe mp : Bool) (tf : TaskDict → Except Unit Int) (child : TaskDict → Int → ChildResult)
    (tl : Option Int) (st : List Int) (g new_g g1 : ParamGrid) (st1 st2 : List Int) (d1 : Bool)
    (ti : Int) (tp : TaskDict)
    (hmk : mkParamGrid names values build = .ok new_g)
    (hmerge : check_merge_grids st g new_g true = .ok (st1, g1, d1))
    (hclaim : get_next_free (some g1) st1 = (.ok (ti, tp), st2, true))
    (hti : 0 ≤ ti) :
    runIterRest names values build foe mp tf child tl st g =
      (match execResult mp tf child tl
          (match tl with
           | some tlv => if !mp then dictSet tp "time_left" (.int tlv) else tp
           | none => tp) with
       | .error _ =>
         if foe then .aborted .taskError st2 g1
         else
           match update_task st2 ti.toNat TASK_FAILED with
           | .ok st3 => .nextIter st3 g1
           | .error e => .aborted e st2 g1
       | .ok status =>
         if status = TASK_FAILED ∨ status = TASK_SUCCESS ∨ status = TASK_AVAILABLE then
           match update_task st2 ti.toNat status with
           | .ok st3 => .nextIter st3 g1
           | .error e => .aborted e st2 g1
         else if foe then .aborted .statusError st2 g1
         else
           match update_task st2 ti.toNat TASK_FAILED with
           | .ok st3 => .nextIter st3 g1
           | .error e => .aborted e st2 g1) := by
  unfold runIterRest
  rw [hmk]
  dsimp only
  rw [hmerge]
  dsimp only
  rw [hclaim]
  dsimp only
  rw [if_neg (by omega : ¬ ti < 0)]

/-- Claim C6: in-process execution, no time budget.  When the task
function raises, or returns a value outside
{SUCCESS, FAILED, AVAILABLE}: under fail-fast the iteration aborts with
the exception and the whole loop propagates it, with the claimed task's
persisted status left at `TASK_RUNNING` (`update_task` is never reached);
under fail-soft the claimed task's status is set to `TASK_FAILED` and the
loop continues with the next iteration. -/
theorem c6_failure_policy
    (names : List String) (values : List (List Val)) (build : Bool)
    (tf : TaskDict → Except Unit Int) (child : TaskDict → Int → ChildResult)
    (elapsed : Int) (es : List Int) (st : List Int) (g new_g g1 : ParamGrid)
    (st1 st2 : List Int) (d1 : Bool) (ti : Int) (tp : TaskDict)
    (hmk : mkParamGrid names values build = .ok new_g)
    (hmerge : check_merge_grids st g new_g true = .ok (st1, g1, d1))
    (hclaim : get_next_free (some g1) st1 = (.ok (ti, tp), st2, true))
    (hti : 0 ≤ ti) :
    (tf tp = .error () →
      runIter names values build true none false tf child elapsed st g =
        .aborted .taskError st2 g1 ∧
      st2[ti.toNat]? = some TASK_RUNNING ∧
      runLoop names values build true none false tf child (elapsed :: es) st g =
        .exn .taskError st2 g1) ∧
    (∀ v : Int, tf tp = .ok v → v ≠ TASK_FAILED → v ≠ TASK_SUCCESS → v ≠ TASK_AVAILABLE →
      runIter names values build true none false tf child elapsed st g =
        .aborted .statusError st2 g1 ∧
      st2[ti.toNat]? = some TASK_RUNNING ∧
      runLoop names values build true none false tf child (elapsed :: es) st g =
        .exn .statusError st2 g1) ∧
    (tf tp = .error () →
      runIter names values build false none false tf child elapsed st g =
        .nextIter (st2.set ti.toNat TASK_FAILED) g1 ∧
      runLoop names values build false none false tf child (elapsed :: es) st g =
        runLoop names values build false none false tf child es
          (st2.set ti.toNat TASK_FAILED) g1) ∧
    (∀ v : Int, tf tp = .ok v → v ≠ TASK_FAILED → v ≠ TASK_SUCCESS → v ≠ TASK_AVAILABLE →
      runIter names values build false none false tf child elapsed st g =
        .nextIter (st2.set ti.toNat TASK_FAILED) g1 ∧
      runLoop names values build false none false tf child (elapsed :: es) st g =
        runLoop names values build false none false tf child es
          (st2.set ti.toNat TASK_FAILED) g1) := by
  obtain ⟨i, hieq, hfa, hst2, -, -⟩ := get_next_free_ok_inv g1 st1 st2 ti tp true hclaim hti
  have hilt : i < st1.length := firstAvailable_some_lt _ _ hfa
  have htn : ti.toNat = i := by rw [hieq]; exact Int.toNat_natCast i
  have hrunning : st2[ti.toNat]? = some TASK_RUNNING := by
    rw [htn, hst2]
    exact List.getElem?_set_self hilt
  have hupd : ∀ v : Int, update_task st2 ti.toNat v = .ok (st2.set ti.toNat v) := fun v =>
    update_task_ok _ _ _ (by rw [htn, hst2]; simpa using hilt)
  have hrestT := runIterRest_exec names values build true false tf child none st g new_g g1
    st1 st2 d1 ti tp hmk hmerge hclaim hti
  have hrestF := runIterRest_exec names values build false false tf child none st g new_g g1
    st1 st2 d1 ti tp hmk hmerge hclaim hti
  refine ⟨?_, ?_, ?_, ?_⟩
  · intro hraise
    have hIter : runIter names values build true none false tf child elapsed st g =
        .aborted .taskError st2 g1 := by
      rw [runIter_budget_none, hrestT]
      dsimp only
      rw [execResult_inproc, hraise]
      rfl
    refine ⟨hIter, hrunning, ?_⟩
    rw [runLoop_cons, hIter]
  · intro v hv hne1 hne2 hne3
    have hIter : runIter names values build true none false tf child elapsed st g =
        .aborted .statusError st2 g1 := by
      rw [runIter_budget_none, hrestT]
      dsimp only
      rw [execResult_inproc, hv]
      dsimp only
      rw [if_neg (by tauto)]
      rfl
    refine ⟨hIter, hrunning, ?_⟩
    rw [runLoop_cons, hIter]
  · intro hraise
    have hIter : runIter names values build false none false tf child elapsed st g =
        .nextIter (st2.set ti.toNat TASK_FAILED) g1 := by
      rw [runIter_budget_none, hrestF]
      dsimp only
      rw [execResult_inproc, hraise]
      dsimp only
      rw [if_neg Bool.false_ne_true, hupd TASK_FAILED]
    refine ⟨hIter, ?_⟩
    rw [runLoop_cons, hIter]
  · intro v hv hne1 hne2 hne3
    have hIter : runIter names values build false none false tf child elapsed st g =
        .nextIter (st2.set ti.toNat TASK_FAILED) g1 := by
      rw [runIter_budget_none, hrestF]
      dsimp only
      rw [execResult_inproc, hv]
      dsimp only
      rw [if_neg (by tauto)]
      rw [if_neg Bool.false_ne_true, hupd TASK_FAILED]
    refine ⟨hIter, ?_⟩
    rw [runLoop_cons, hIter]

/-- Claim C6 witness: all four cases at a concrete one-task buffet. -/
theorem c6_failure_policy_witness :
    (runIter ["a"] [[.int 0]] false true none false (fun _ => .error ())
      (fun _ _ => ⟨false, 0, 0⟩) 0 [TASK_AVAILABLE] ⟨["a"], [[.int 0]]⟩ =
      .aborted .taskError [TASK_RUNNING] ⟨["a"], [[.int 0]]⟩) ∧
    (runIter ["a"] [[.int 0]] false true none false (fun _ => .ok 7)
      (fun _ _ => ⟨false, 0, 0⟩) 0 [TASK_AVAILABLE] ⟨["a"], [[.int 0]]⟩ =
      .aborted .statusError [TASK_RUNNING] ⟨["a"], [[.int 0]]⟩) ∧
    (runIter ["a"] [[.int 0]] false false none false (fun _ => .error ())
      (fun _ _ => ⟨false, 0, 0⟩) 0 [TASK_AVAILABLE] ⟨["a"], [[.int 0]]⟩ =
      .nextIter [TASK_FAILED] ⟨["a"], [[.int 0]]⟩) ∧
    (runIter ["a"] [[.int 0]] false false none false (fun _ => .ok 7)
      (fun _ _ => ⟨false, 0, 0⟩) 0 [TASK_AVAILABLE] ⟨["a"], [[.int 0]]⟩ =
      .nextIter [TASK_FAILED] ⟨["a"], [[.int 0]]⟩) := by
  have h1 := c6_failure_policy ["a"] [[.int 0]] false (fun _ => .error ())
    (fun _ _ => ⟨false, 0, 0⟩) 0 [] [TASK_AVAILABLE] ⟨["a"], [[.int 0]]⟩ ⟨["a"], [[.int 0]]⟩
    ⟨["a"], [[.int 0]]⟩ [TASK_AVAILABLE] [TASK_RUNNING] false 0 [("a", .int 0)]
    (by decide) (by decide) (by decide) (by decide)
  have h2 := c6_failure_policy ["a"] [[.int 0]] false (fun _ => .ok 7)
    (fun _ _ => ⟨false, 0, 0⟩) 0 [] [TASK_AVAILABLE] ⟨["a"], [[.int 0]]⟩ ⟨["a"], [[.int 0]]⟩
    ⟨["a"], [[.int 0]]⟩ [TASK_AVAILABLE] [TASK_RUNNING] false 0 [("a", .int 0)]
    (by decide) (by decide) (by decide) (by decide)
  refine ⟨((h1.1 rfl).1).trans (by decide), ?_, ?_, ?_⟩
  · exact ((h2.2.1 7 rfl (by decide) (by decide) (by decide)).1).trans (by decide)
  · exact ((h1.2.2.1 rfl).1).trans (by decide)
  · exact ((h2.2.2.2 7 rfl (by decide) (by decide) (by decide)).1).trans (by decide)

lemma kill_proc_tree_spec (children : List Proc) (incl : Bool) :
    (∀ pb ∈ (kill_proc_tree children incl).1, pb.2 = false) ∧
    (kill_proc_tree children incl).2 = incl := by
  constructor
  · intro pb hpb
    unfold kill_proc_tree at hpb
    dsimp only at hpb
    rcases List.mem_map.mp hpb with ⟨cb, hcb, rfl⟩
    dsimp only
    by_cases hmem : cb.1 ∈ ((children.map (fun c => (c, !c.diesOnTerminate))).filter
        (fun cb => cb.2)).map Prod.fst
    · rw [if_pos hmem]
    · rw [if_neg hmem]
      by_cases hterm : cb.2 = true
      · exact absurd (List.mem_map_of_mem _ (List.mem_filter.mpr ⟨hcb, hterm⟩)) hmem
      · simpa using hterm
  · rfl

/-- Claim C5: supervised-subprocess mode with a time budget, for a claimed
task.  If the child is still alive when the timeout elapses, the recorded
outcome is `TASK_AVAILABLE` (requeued, never `TASK_FAILED`) and
`kill_proc_tree` is invoked, after which every process of the child's
descendant tree is dead (and the child itself, `including_parent`).  If the
child exited with a nonzero code the outcome is `TASK_FAILED`.  Otherwise
the outcome is the value read from the channel. -/
theorem c5_supervised_timeout
    (names : List String) (values : List (List Val)) (build foe : Bool)
    (tf : TaskDict → Except Unit Int) (child : TaskDict → Int → ChildResult)
    (b elapsed : Int) (st : List Int) (g new_g g1 : ParamGrid)
    (st1 st2 : List Int) (d1 : Bool) (ti : Int) (tp : TaskDict)
    (htime : ¬ b - elapsed < 0)
    (hmk : mkParamGrid names values build = .ok new_g)
    (hmerge : check_merge_grids st g new_g true = .ok (st1, g1, d1))
    (hclaim : get_next_free (some g1) st1 = (.ok (ti, tp), st2, true))
    (hti : 0 ≤ ti) :
    ((child tp (b - elapsed)).aliveAtTimeout = true →
      supervise (child tp (b - elapsed)) = (TASK_AVAILABLE, true) ∧
      runIter names values build foe (some b) true tf child elapsed st g =
        .nextIter (st2.set ti.toNat TASK_AVAILABLE) g1) ∧
    ((child tp (b - elapsed)).aliveAtTimeout = false →
      (child tp (b - elapsed)).exitcode ≠ 0 →
      supervise (child tp (b - elapsed)) = (TASK_FAILED, false) ∧
      runIter names values build foe (some b) true tf child elapsed st g =
        .nextIter (st2.set ti.toNat TASK_FAILED) g1) ∧
    ((child tp (b - elapsed)).aliveAtTimeout = false →
      (child tp (b - elapsed)).exitcode = 0 →
      ((child tp (b - elapsed)).channelValue = TASK_FAILED ∨
        (child tp (b - elapsed)).channelValue = TASK_SUCCESS ∨
        (child tp (b - elapsed)).channelValue = TASK_AVAILABLE) →
      supervise (child tp (b - elapsed)) = ((child tp (b - elapsed)).channelValue, false) ∧
      runIter names values build foe (some b) true tf child elapsed st g =
        .nextIter (st2.set ti.toNat (child tp (b - elapsed)).channelValue) g1) ∧
    (∀ (children : List Proc),
      (∀ pb ∈ (kill_proc_tree children true).1, pb.2 = false) ∧
      (kill_proc_tree children true).2 = true) := by
  obtain ⟨i, hieq, hfa, hst2, -, -⟩ := get_next_free_ok_inv g1 st1 st2 ti tp true hclaim hti
  have hilt : i < st1.length := firstAvailable_some_lt _ _ hfa
  have htn : ti.toNat = i := by rw [hieq]; exact Int.toNat_natCast i
  have hupd : ∀ v : Int, update_task st2 ti.toNat v = .ok (st2.set ti.toNat v) := fun v =>
    update_task_ok _ _ _ (by rw [htn, hst2]; simpa using hilt)
  have hrest := runIterRest_exec names values build foe true tf child (some (b - elapsed))
    st g new_g g1 st1 st2 d1 ti tp hmk hmerge hclaim hti
  refine ⟨?_, ?_, ?_, fun children => kill_proc_tree_spec children true⟩
  · intro halive
    have hsup : supervise (child tp (b - elapsed)) = (TASK_AVAILABLE, true) := by
      unfold supervise
      rw [if_pos halive]
    refine ⟨hsup, ?_⟩
    rw [runIter_budget_some names values build foe true tf child b elapsed st g htime, hrest]
    dsimp only
    simp only [Bool.not_true, Bool.false_eq_true, if_false]
    rw [execResult_mp, hsup]
    dsimp only
    rw [if_pos (Or.inr (Or.inr rfl)), hupd TASK_AVAILABLE]
  · intro halive hexit
    have hsup : supervise (child tp (b - elapsed)) = (TASK_FAILED, false) := by
      unfold supervise
      rw [if_neg (by simp [halive]), if_pos (by simpa using hexit)]
    refine ⟨hsup, ?_⟩
    rw [runIter_budget_some names values build foe true tf child b elapsed st g htime, hrest]
    dsimp only
    simp only [Bool.not_true, Bool.false_eq_true, if_false]
    rw [execResult_mp, hsup]
    dsimp only
    rw [if_pos (Or.inl rfl), hupd TASK_FAILED]
  · intro halive hexit hvalid
    have hsup : supervise (child tp (b - elapsed)) =
        ((child tp (b - elapsed)).channelValue, false) := by
      unfold supervise
      rw [if_neg (by simp [halive]), if_neg (by simpa using hexit)]
    refine ⟨hsup, ?_⟩
    rw [runIter_budget_some names values build foe true tf child b elapsed st g htime, hrest]
    dsimp only
    simp only [Bool.not_true, Bool.false_eq_true, if_false]
    rw [execResult_mp, hsup]
    dsimp only
    rw [if_pos hvalid, hupd ((child tp (b - elapsed)).channelValue)]

/-- Claim C5 witness: the three child observations at a concrete one-task
buffet, plus `kill_proc_tree` on a two-process tree. -/
theorem c5_supervised_timeout_witness :
    (runIter ["a"] [[.int 0]] false true (some 10) true (fun _ => .error ())
      (fun _ _ => ⟨true, 0, 0⟩) 0 [TASK_AVAILABLE] ⟨["a"], [[.int 0]]⟩ =
      .nextIter [TASK_AVAILABLE] ⟨["a"], [[.int 0]]⟩) ∧
    (runIter ["a"] [[.int 0]] false true (some 10) true (fun _ => .error ())
      (fun _ _ => ⟨false, 3, 0⟩) 0 [TASK_AVAILABLE] ⟨["a"], [[.int 0]]⟩ =
      .nextIter [TASK_FAILED] ⟨["a"], [[.int 0]]⟩) ∧
    (runIter ["a"] [[.int 0]] false true (some 10) true (fun _ => .error ())
      (fun _ _ => ⟨false, 0, TASK_SUCCESS⟩) 0 [TASK_AVAILABLE] ⟨["a"], [[.int 0]]⟩ =
      .nextIter [TASK_SUCCESS] ⟨["a"], [[.int 0]]⟩) ∧
    (∀ pb ∈ (kill_proc_tree [⟨10, true⟩, ⟨11, false⟩] true).1, pb.2 = false) := by
  have h1 := c5_supervised_timeout ["a"] [[.int 0]] false true (fun _ => .error ())
    (fun _ _ => ⟨true, 0, 0⟩) 10 0 [TASK_AVAILABLE] ⟨["a"], [[.int 0]]⟩ ⟨["a"], [[.int 0]]⟩
    ⟨["a"], [[.int 0]]⟩ [TASK_AVAILABLE] [TASK_RUNNING] false 0 [("a", .int 0)]
    (by norm_num) (by decide) (by decide) (by decide) (by decide)
  have h2 := c5_supervised_timeout ["a"] [[.int 0]] false true (fun _ => .error ())
    (fun _ _ => ⟨false, 3, 0⟩) 10 0 [TASK_AVAILABLE] ⟨["a"], [[.int 0]]⟩ ⟨["a"], [[.int 0]]⟩
    ⟨["a"], [[.int 0]]⟩ [TASK_AVAILABLE] [TASK_RUNNING] false 0 [("a", .int 0)]
    (by norm_num) (by decide) (by decide) (by decide) (by decide)
  have h3 := c5_supervised_timeout ["a"] [[.int 0]] false true (fun _ => .error ())
    (fun _ _ => ⟨false, 0, TASK_SUCCESS⟩) 10 0 [TASK_AVAILABLE] ⟨["a"], [[.int 0]]⟩
    ⟨["a"], [[.int 0]]⟩ ⟨["a"], [[.int 0]]⟩ [TASK_AVAILABLE] [TASK_RUNNING] false 0
    [("a", .int 0)] (by norm_num) (by decide) (by decide) (by decide) (by decide)
  refine ⟨((h1.1 rfl).2).trans (by decide), ((h2.2.1 rfl (by decide)).2).trans (by decide),
    ((h3.2.2.1 rfl rfl (by decide)).2).trans (by decide), ?_⟩
  exact (h1.2.2.2 [⟨10, true⟩, ⟨11, false⟩]).1

/-- Claim C8 (amended): with a time budget, the loop stops before claiming
and `run` returns `True` ("ran out of time") exactly when the remaining
time is *strictly negative* (`time_left < 0`, buffet.py line 136); at a
remaining time of exactly zero the loop proceeds and claims.  When the
claim returns `-1` (queue drained) the run returns `False` ("done"). -/
theorem c8_time_budget
    (names : List String) (values : List (List Val)) (build foe mp : Bool)
    (tf : TaskDict → Except Unit Int) (child : TaskDict → Int → ChildResult)
    (b elapsed : Int) (es : List Int) (st : List Int) (g : ParamGrid) :
    (b - elapsed < 0 →
      runIter names values build foe (some b) mp tf child elapsed st g = .stopOutOfTime st g ∧
      runLoop names values build foe (some b) mp tf child (elapsed :: es) st g =
        .ranOutOfTime st g) ∧
    (∀ (new_g g1 : ParamGrid) (st1 : List Int) (d1 : Bool),
      ¬ b - elapsed < 0 →
      mkParamGrid names values build = .ok new_g →
      check_merge_grids st g new_g true = .ok (st1, g1, d1) →
      (∀ x ∈ st1, x ≠ TASK_AVAILABLE) →
      runIter names values build foe (some b) mp tf child elapsed st g = .drained st1 g1 ∧
      runLoop names values build foe (some b) mp tf child (elapsed :: es) st g =
        .doneAll st1 g1) := by
  constructor
  · intro h
    have hIter := runIter_budget_stop names values build foe mp tf child b elapsed st g h
    exact ⟨hIter, by rw [runLoop_cons, hIter]⟩
  · intro new_g g1 st1 d1 htime hmk hmerge hnone
    have hnext : get_next_free (some g1) st1 = (.ok (-1, []), st1, false) := by
      unfold get_next_free
      rw [(firstAvailable_none_iff st1).mpr hnone]
    have hIter : runIter names values build foe (some b) mp tf child elapsed st g =
        .drained st1 g1 := by
      rw [runIter_budget_some names values build foe mp tf child b elapsed st g htime]
      unfold runIterRest
      rw [hmk]
      dsimp only
      rw [hmerge]
      dsimp only
      rw [hnext]
      dsimp only
      rw [if_pos (by norm_num : (-1 : Int) < 0)]
    exact ⟨hIter, by rw [runLoop_cons, hIter]⟩

/-- Claim C8 witness: stopping with a negative remaining time, and
finishing with "done" on a drained queue. -/
theorem c8_time_budget_witness :
    (runLoop ["a"] [[.int 0]] false true (some 5) false (fun _ => .ok TASK_SUCCESS)
      (fun _ _ => ⟨false, 0, 0⟩) [6] [TASK_AVAILABLE] ⟨["a"], [[.int 0]]⟩ =
      .ranOutOfTime [TASK_AVAILABLE] ⟨["a"], [[.int 0]]⟩) ∧
    (runLoop ["a"] [[.int 0]] false true (some 5) false (fun _ => .ok TASK_SUCCESS)
      (fun _ _ => ⟨false, 0, 0⟩) [2] [TASK_SUCCESS] ⟨["a"], [[.int 0]]⟩ =
      .doneAll [TASK_SUCCESS] ⟨["a"], [[.int 0]]⟩) := by
  have h1 := (c8_time_budget ["a"] [[.int 0]] false true false (fun _ => .ok TASK_SUCCESS)
    (fun _ _ => ⟨false, 0, 0⟩) 5 6 [] [TASK_AVAILABLE] ⟨["a"], [[.int 0]]⟩).1 (by norm_num)
  have h2 := (c8_time_budget ["a"] [[.int 0]] false true false (fun _ => .ok TASK_SUCCESS)
    (fun _ _ => ⟨false, 0, 0⟩) 5 2 [] [TASK_SUCCESS] ⟨["a"], [[.int 0]]⟩).2
    ⟨["a"], [[.int 0]]⟩ ⟨["a"], [[.int 0]]⟩ [TASK_SUCCESS] false (by norm_num)
    (by decide) (by decide) (by decide)
  exact ⟨h1.2, h2.2⟩

/-- Claim C8 counterexample: at a remaining time of exactly zero
(budget 5, elapsed 5) the claim requires the loop to stop before claiming
with "ran out of time"; the code instead claims task 0, runs it to
`TASK_SUCCESS`, and continues the loop. -/
theorem c8_time_budget_counterexample :
    runIter ["a"] [[.int 0]] false true (some 5) false (fun _ => .ok TASK_SUCCESS)
      (fun _ _ => ⟨false, 0, 0⟩) 5 [TASK_AVAILABLE] ⟨["a"], [[.int 0]]⟩ =
      .nextIter [TASK_SUCCESS] ⟨["a"], [[.int 0]]⟩ ∧
    ((5 : Int) - 5 ≤ 0) ∧
    (IterResult.nextIter [TASK_SUCCESS] (⟨["a"], [[.int 0]]⟩ : ParamGrid) ≠
      .stopOutOfTime [TASK_AVAILABLE] ⟨["a"], [[.int 0]]⟩) := by
  refine ⟨by decide, by decide, by decide⟩

lemma find?_range_eq_none_iff (P : Nat → Bool) (n : Nat) :
    (List.range n).find? P = none ↔ ∀ i, i < n → P i = false := by
  induction n with
  | zero => simp
  | succ m ih =>
    rw [List.range_succ, List.find?_append]
    constructor
    · intro h
      have h1 : (List.range m).find? P = none := by
        cases hfr : (List.range m).find? P with
        | none => rfl
        | some j => rw [hfr] at h; simp at h
      have h2 : P m = false := by
        rw [h1] at h
        cases hpm : P m with
        | false => rfl
        | true => simp [List.find?, hpm] at h
      intro i hi
      rcases Nat.lt_succ_iff_lt_or_eq.mp hi with hi | rfl
      · exact ih.mp h1 i hi
      · exact h2
    · intro h
      have h1 : (List.range m).find? P = none := ih.mpr (fun i hi => h i (by omega))
      rw [h1]
      simp [List.find?, h m (by omega)]

lemma find?_range_eq_some_iff (P : Nat → Bool) (n k : Nat) :
    (List.range n).find? P = some k ↔ k < n ∧ P k = true ∧ ∀ j, j < k → P j = false := by
  induction n generalizing k with
  | zero => simp
  | succ m ih =>
    rw [List.range_succ, List.find?_append]
    cases hfr : (List.range m).find? P with
    | some j =>
      simp only [Option.or_some]
      obtain ⟨hj1, hj2, hj3⟩ := (ih j).mp hfr
      constructor
      · intro h
        injection h with h
        subst h
        exact ⟨by omega, hj2, hj3⟩
      · rintro ⟨hk1, hk2, hk3⟩
        have hnlt1 : ¬ j < k := fun hlt => by rw [hk3 j hlt] at hj2; exact Bool.false_ne_true hj2
        have hnlt2 : ¬ k < j := fun hlt => by rw [hj3 k hlt] at hk2; exact Bool.false_ne_true hk2
        have hjk : j = k := by omega
        rw [hjk]
    | none =>
      simp only [Option.none_or]
      have hall := (find?_range_eq_none_iff P m).mp hfr
      cases hpm : P m with
      | true =>
        constructor
        · intro h
          have hmk : m = k := by simpa [List.find?, hpm] using h
          subst hmk
          exact ⟨by omega, hpm, fun j hj => hall j hj⟩
        · rintro ⟨hk1, hk2, hk3⟩
          have hkm : k = m := by
            by_contra hne
            have hklt : k < m := by omega
            rw [hall k hklt] at hk2
            exact Bool.false_ne_true hk2
          subst hkm
          simp [List.find?, hpm]
      | false =>
        constructor
        · intro h
          simp [List.find?, hpm] at h
        · rintro ⟨hk1, hk2, hk3⟩
          exfalso
          rcases Nat.lt_succ_iff_lt_or_eq.mp hk1 with hk | rfl
          · rw [hall k hk] at hk2
            exact Bool.false_ne_true hk2
          · rw [hpm] at hk2
            exact Bool.false_ne_true hk2

lemma findMatchAux_char (saved_p : TaskDict) (new_g : ParamGrid) (hwf : new_g.wf) :
    ∀ (fuel i : Nat), i < new_g.nvals → new_g.nvals ≤ i + fuel →
      findMatchAux saved_p new_g i fuel =
        match (List.range' i (new_g.nvals - i)).find?
            (fun j => dict_eq saved_p (getItemD new_g j)) with
        | some j => .ok j
        | none => .error .mergeNoMatch := by
  intro fuel
  induction fuel with
  | zero => intro i h1 h2; omega
  | succ n ih =>
    intro i h1 h2
    have hgi := getItemOpt_eq_getItemD new_g i hwf h1
    unfold findMatchAux
    rw [hgi]
    dsimp only
    have hrange : new_g.nvals - i = (new_g.nvals - (i + 1)) + 1 := by omega
    rw [hrange, List.range'_succ, List.find?_cons]
    by_cases hde : dict_eq saved_p (getItemD new_g i) = true
    · rw [if_pos hde, hde]
    · rw [if_neg hde]
      rw [Bool.not_eq_true] at hde
      rw [hde]
      by_cases hend : i + 1 = new_g.nvals
      · rw [if_pos hend]
        have : new_g.nvals - (i + 1) = 0 := by omega
        rw [this]
        rfl
      · rw [if_neg hend]
        exact ih (i + 1) (by omega) (by omega)

lemma findMatch_eq_firstMatch (saved_p : TaskDict) (new_g : ParamGrid)
    (hwf : new_g.wf) (hn : 0 < new_g.nvals) :
    findMatch saved_p new_g =
      match firstMatch saved_p new_g with
      | some j => .ok j
      | none => .error .mergeNoMatch := by
  unfold findMatch firstMatch
  rw [findMatchAux_char saved_p new_g hwf (new_g.nvals + 1) 0 hn (by omega),
    List.range_eq_range']
  norm_num

lemma mergeSpecOver_some_length (saved_status : List Int) (saved_g new_g : ParamGrid) :
    ∀ (L : List Nat) (acc out : List Int),
      mergeSpecOver saved_status saved_g new_g L acc = some out → out.length = acc.length := by
  intro L
  induction L with
  | nil =>
    intro acc out h
    injection h with h
    subst h
    rfl
  | cons p ps ih =>
    intro acc out h
    unfold mergeSpecOver at h
    cases hfm : firstMatch (getItemD saved_g p) new_g with
    | none => rw [hfm] at h; cases h
    | some i =>
      rw [hfm] at h
      have := ih _ out h
      simpa using this

lemma mergeSpecOver_none_iff (saved_status : List Int) (saved_g new_g : ParamGrid) :
    ∀ (L : List Nat) (acc : List Int),
      mergeSpecOver saved_status saved_g new_g L acc = none ↔
        ∃ p ∈ L, firstMatch (getItemD saved_g p) new_g = none := by
  intro L
  induction L with
  | nil => intro acc; simp [mergeSpecOver]
  | cons p ps ih =>
    intro acc
    cases hfm : firstMatch (getItemD saved_g p) new_g with
    | none =>
      simp only [mergeSpecOver, hfm]
      constructor
      · intro _; exact ⟨p, by simp, hfm⟩
      · intro _; trivial
    | some i =>
      simp only [mergeSpecOver, hfm]
      rw [ih]
      constructor
      · rintro ⟨q, hq, hqn⟩
        exact ⟨q, by simp [hq], hqn⟩
      · rintro ⟨q, hq, hqn⟩
        rcases List.mem_cons.mp hq with rfl | hq
        · rw [hfm] at hqn; cases hqn
        · exact ⟨q, hq, hqn⟩

lemma mergeLoopGo_eq_spec (saved_status : List Int) (saved_g new_g : ParamGrid)
    (hwf_s : saved_g.wf) (hwf_n : new_g.wf) (hn : 0 < new_g.nvals)
    (hlen : saved_status.length = saved_g.nvals) :
    ∀ (fuel p : Nat) (acc : List Int), p + fuel = saved_g.nvals → acc.length = new_g.nvals →
      mergeLoopGo saved_status saved_g new_g p fuel acc =
        match mergeSpecOver saved_status saved_g new_g (List.range' p fuel) acc with
        | some out => .ok out
        | none => .error .mergeNoMatch := by
  intro fuel
  induction fuel with
  | zero => intro p acc h1 h2; rfl
  | succ n ih =>
    intro p acc h1 h2
    have hp : p < saved_g.nvals := by omega
    have hgi := getItemOpt_eq_getItemD saved_g p hwf_s hp
    rw [List.range'_succ]
    unfold mergeLoopGo
    rw [hgi]
    dsimp only
    rw [findMatch_eq_firstMatch _ _ hwf_n hn]
    cases hfm : firstMatch (getItemD saved_g p) new_g with
    | none =>
      simp only [mergeSpecOver, hfm]
    | some i =>
      have hi : i < new_g.nvals := by
        have h0 : (List.range new_g.nvals).find?
            (fun j => dict_eq (getItemD saved_g p) (getItemD new_g j)) = some i := hfm
        exact ((find?_range_eq_some_iff _ _ _).mp h0).1
      have hplen : p < saved_status.length := by omega
      have hvp : saved_status[p]? = some (saved_status.getD p TASK_AVAILABLE) := by
        rw [List.getD_eq_getElem?_getD, List.getElem?_eq_getElem hplen]
        rfl
      dsimp only
      rw [hvp]
      dsimp only
      rw [if_pos (by omega : i < acc.length)]
      simp only [mergeSpecOver, hfm]
      exact ih (p + 1) (acc.set i (saved_status.getD p TASK_AVAILABLE)) (by omega)
        (by simpa using h2)

/-- Claim C3 (amended): merging a saved buffet into a structurally unequal
requested grid with merging allowed equals the specification-side merge
`mergeSpec`: a status array sized to the requested grid, defaulted to
`TASK_AVAILABLE`, where each saved task index `p` (in order) gives its
saved status to the first requested index whose parameter dictionary is
deep-equal to saved task `p`; and when some saved task has no deep-equal
match, the merge fails with the "Unable to find match" error - *provided
the requested grid has at least one task* (with an empty requested grid
the failure is an IndexError instead, see the counterexample). -/
theorem c3_merge_semantics (saved_status : List Int) (saved_g new_g : ParamGrid)
    (hwf_s : saved_g.wf) (hwf_n : new_g.wf)
    (hlen : saved_status.length = saved_g.nvals)
    (hne : grids_eq saved_g new_g = .ok false) :
    (0 < new_g.nvals →
      check_merge_grids saved_status saved_g new_g true =
        match mergeSpec saved_status saved_g new_g with
        | some out => .ok (out, new_g, true)
        | none => .error .mergeNoMatch) ∧
    (∀ out, mergeSpec saved_status saved_g new_g = some out → out.length = new_g.nvals) ∧
    (0 < new_g.nvals →
      (∃ p, p < saved_g.nvals ∧
        ∀ i, i < new_g.nvals → dict_eq (getItemD saved_g p) (getItemD new_g i) = false) →
      check_merge_grids saved_status saved_g new_g true = .error .mergeNoMatch) := by
  have hmain : ∀ _ : 0 < new_g.nvals,
      check_merge_grids saved_status saved_g new_g true =
        match mergeSpec saved_status saved_g new_g with
        | some out => .ok (out, new_g, true)
        | none => .error .mergeNoMatch := by
    intro hn
    unfold check_merge_grids
    rw [hne]
    simp only [exceptBind_ok, Bool.false_eq_true, if_false, Bool.not_true]
    unfold mergeLoop
    rw [mergeLoopGo_eq_spec saved_status saved_g new_g hwf_s hwf_n hn hlen saved_g.nvals 0
      (List.replicate new_g.nvals TASK_AVAILABLE) (by omega) (by simp)]
    unfold mergeSpec
    rw [List.range_eq_range']
    cases hso : mergeSpecOver saved_status saved_g new_g (List.range' 0 saved_g.nvals)
        (List.replicate new_g.nvals TASK_AVAILABLE) with
    | some out => rfl
    | none => rfl
  refine ⟨hmain, ?_, ?_⟩
  · intro out hout
    have := mergeSpecOver_some_length saved_status saved_g new_g
      (List.range saved_g.nvals) (List.replicate new_g.nvals TASK_AVAILABLE) out hout
    simpa using this
  · intro hn ⟨p, hp, hnomatch⟩
    have hfm : firstMatch (getItemD saved_g p) new_g = none := by
      have : (List.range new_g.nvals).find?
          (fun i => dict_eq (getItemD saved_g p) (getItemD new_g i)) = none :=
        (find?_range_eq_none_iff _ _).mpr hnomatch
      exact this
    have hnone : mergeSpec saved_status saved_g new_g = none := by
      unfold mergeSpec
      exact (mergeSpecOver_none_iff saved_status saved_g new_g
        (List.range saved_g.nvals) (List.replicate new_g.nvals TASK_AVAILABLE)).mpr
        ⟨p, List.mem_range.mpr hp, hfm⟩
    rw [hmain hn, hnone]

/-- Claim C3 witness: a concrete merge where the single saved task matches
requested index 1, and a concrete failing merge. -/
theorem c3_merge_semantics_witness :
    check_merge_grids [TASK_SUCCESS] ⟨["a"], [[.int 5]]⟩ ⟨["a"], [[.int 7, .int 5]]⟩ true =
      .ok ([TASK_AVAILABLE, TASK_SUCCESS], ⟨["a"], [[.int 7, .int 5]]⟩, true) ∧
    check_merge_grids [TASK_SUCCESS] ⟨["a"], [[.int 5]]⟩ ⟨["a"], [[.int 7]]⟩ true =
      .error .mergeNoMatch := by
  have h1 := (c3_merge_semantics [TASK_SUCCESS] ⟨["a"], [[.int 5]]⟩ ⟨["a"], [[.int 7, .int 5]]⟩
    ⟨by decide, by decide⟩ ⟨by decide, by decide⟩ (by decide) (by decide)).1 (by decide)
  have h2 := (c3_merge_semantics [TASK_SUCCESS] ⟨["a"], [[.int 5]]⟩ ⟨["a"], [[.int 7]]⟩
    ⟨by decide, by decide⟩ ⟨by decide, by decide⟩ (by decide) (by decide)).2.2 (by decide)
    ⟨0, by decide, fun i hi => by
      have h1 : i < 1 := hi
      have h0 : i = 0 := by omega
      subst h0
      decide⟩
  exact ⟨h1.trans (by decide), h2⟩

/-- Claim C3 counterexample: a saved task with no match in an *empty*
requested grid (names ['a'], values [[]], a grid `ParamGrid` constructs).
The claim requires a MergeError; the code instead subscripts `new_g[0]`
before the first comparison, raising an IndexError. -/
theorem c3_merge_semantics_counterexample :
    mkParamGrid ["a"] [[]] false = .ok ⟨["a"], [[]]⟩ ∧
    (⟨["a"], [[]]⟩ : ParamGrid).nvals = 0 ∧
    check_merge_grids [TASK_AVAILABLE] ⟨["a"], [[.int 0]]⟩ ⟨["a"], [[]]⟩ true =
      .error .indexError ∧
    BuffetErr.indexError ≠ BuffetErr.mergeNoMatch := by
  refine ⟨by decide, by decide, by decide, by decide⟩

lemma getD_set_ne {α : Type} (l : List α) (j i : Nat) (v : α) (d : α) (h : j ≠ i) :
    (l.set j v).getD i d = l.getD i d := by
  rw [List.getD_eq_getElem?_getD, List.getD_eq_getElem?_getD, List.getElem?_set_ne h]

lemma getD_map_range {α : Type} (f : Nat → α) (n i : Nat) (d : α) (h : i < n) :
    ((List.range n).map f).getD i d = f i := by
  rw [List.getD_eq_getElem?_getD, List.getElem?_map, List.getElem?_range h]
  rfl

lemma map_getD_range_self {α : Type} (l : List α) (d : α) :
    (List.range l.length).map (fun j => l.getD j d) = l := by
  apply List.ext_getElem
  · simp
  · intro i h1 h2
    rw [List.getElem_map, List.getElem_range, List.getD_eq_getElem?_getD,
      List.getElem?_eq_getElem h2]
    rfl

lemma getD_reverse {α : Type} (l : List α) (m : Nat) (d : α) (h : m < l.length) :
    l.reverse.getD m d = l.getD (l.length - 1 - m) d := by
  rw [List.getD_eq_getElem?_getD, List.getD_eq_getElem?_getD,
    List.getElem?_eq_getElem (by simpa using h),
    List.getElem?_eq_getElem (show l.length - 1 - m < l.length by omega)]
  rw [List.getElem_reverse]

lemma prodList_eq_prod (l : List Nat) : prodList l = l.prod := by
  rw [List.prod_eq_foldl]
  rfl

lemma prodList_reverse (l : List Nat) : prodList l.reverse = prodList l := by
  rw [prodList_eq_prod, prodList_eq_prod, List.prod_reverse]

lemma meshFold_data (arr : List Val) (lens : List Nat) (dim i : Nat) (ks : List Nat) :
    (((List.range dim).foldl
        (fun t j => if j = i then t else t.repeatAxis (lens.getD j 0) j)
        ⟨(List.range dim).map (fun j => if j = i then lens.getD i 0 else 1),
         fun ks => arr.getD (ks.getD i 0) (Val.int 0)⟩ : NdArr)).data ks =
      arr.getD (ks.getD i 0) (Val.int 0) := by
  suffices h : ∀ (l : List Nat) (t : NdArr),
      (∀ ks0, t.data ks0 = arr.getD (ks0.getD i 0) (Val.int 0)) →
      ∀ ks0, ((l.foldl (fun t j => if j = i then t else t.repeatAxis (lens.getD j 0) j)
          t)).data ks0 = arr.getD (ks0.getD i 0) (Val.int 0) by
    exact h (List.range dim) _ (fun _ => rfl) ks
  intro l
  induction l with
  | nil => intro t ht ks0; exact ht ks0
  | cons j js ih =>
    intro t ht ks0
    rw [List.foldl_cons]
    apply ih
    intro ks1
    by_cases hj : j = i
    · rw [if_pos hj]
      exact ht ks1
    · rw [if_neg hj]
      unfold NdArr.repeatAxis
      dsimp only
      rw [ht, getD_set_ne _ _ _ _ _ hj]

lemma repeatAxis_shape (t : NdArr) (k j : Nat) :
    (t.repeatAxis k j).shape = t.shape.set j (t.shape.getD j 0 * k) := rfl

lemma meshFold_shape (lens : List Nat) (dim i : Nat) (dataF : List Nat → Val)
    (hlen : lens.length = dim) (hi : i < dim) :
    (((List.range dim).foldl
        (fun t j => if j = i then t else t.repeatAxis (lens.getD j 0) j)
        ⟨(List.range dim).map (fun j => if j = i then lens.getD i 0 else 1), dataF⟩ :
          NdArr)).shape = lens := by
  have hpartial : ∀ m, m ≤ dim →
      (((List.range m).foldl
          (fun t j => if j = i then t else t.repeatAxis (lens.getD j 0) j)
          ⟨(List.range dim).map (fun j => if j = i then lens.getD i 0 else 1), dataF⟩ :
            NdArr)).shape =
        (List.range dim).map (fun j => if j = i ∨ j < m then lens.getD j 0 else 1) := by
    intro m
    induction m with
    | zero =>
      intro _
      dsimp only [List.range_zero, List.foldl_nil]
      apply List.map_congr_left
      intro j hj
      by_cases hji : j = i
      · subst hji
        simp
      · simp [hji]
    | succ m ihm =>
      intro hm1
      have hprev := ihm (by omega)
      rw [List.range_succ, List.foldl_append, List.foldl_cons, List.foldl_nil]
      by_cases hmi : m = i
      · rw [if_pos hmi]
        rw [hprev]
        apply List.map_congr_left
        intro j hj
        by_cases hji : j = i
        · simp [hji]
        · have hjm : ¬ j = m := by omega
          by_cases hjlt : j < m
          · simp [hji, hjlt, show j < m + 1 by omega]
          · simp [hji, hjlt, show ¬ j < m + 1 by omega]
      · rw [if_neg hmi]
        rw [repeatAxis_shape, hprev]
        have hmdim : m < dim := by omega
        have hgetd : ((List.range dim).map
            (fun j => if j = i ∨ j < m then lens.getD j 0 else 1)).getD m 0 = 1 := by
          rw [getD_map_range _ _ _ _ hmdim]
          simp [hmi]
        rw [hgetd, Nat.one_mul]
        apply List.ext_getElem
        · simp
        · intro k hk1 hk2
          have hkdim : k < dim := by simpa using hk2
          rw [List.getElem_set]
          by_cases hkm : m = k
          · subst hkm
            rw [if_pos rfl]
            simp only [List.getElem_map, List.getElem_range]
            have : (m = i ∨ m < m + 1) := Or.inr (by omega)
            simp [this]
          · rw [if_neg hkm]
            simp only [List.getElem_map, List.getElem_range]
            by_cases hki : k = i
            · simp [hki]
            · by_cases hklt : k < m
              · simp [hki, hklt, show k < m + 1 by omega]
              · simp [hki, hklt, show ¬ k < m + 1 by omega]
  have hfin := hpartial dim le_rfl
  rw [hfin]
  have : (List.range dim).map (fun j => if j = i ∨ j < dim then lens.getD j 0 else 1) =
      (List.range dim).map (fun j => lens.getD j 0) := by
    apply List.map_congr_left
    intro j hj
    have : j < dim := List.mem_range.mp hj
    simp [Or.inr this]
  rw [this, ← hlen, map_getD_range_self]

lemma getD_map_length (l : List (List Val)) (m : Nat) (h : m < l.length) :
    (l.map List.length).getD m 0 = (l.getD m []).length := by
  rw [List.getD_eq_getElem?_getD, List.getElem?_map, List.getElem?_eq_getElem h,
    List.getD_eq_getElem?_getD, List.getElem?_eq_getElem h]
  rfl

lemma meshBuild_flat (arr : List Val) (lens : List Nat) (dim i : Nat)
    (hlen : lens.length = dim) (hi : i < dim) :
    NdArr.flat ((List.range dim).foldl
        (fun t j => if j = i then t else t.repeatAxis (lens.getD j 0) j)
        ⟨(List.range dim).map (fun j => if j = i then lens.getD i 0 else 1),
         fun ks => arr.getD (ks.getD i 0) (Val.int 0)⟩) =
      (List.range (prodList lens)).map
        (fun f => arr.getD ((f / prodList (lens.drop (i + 1))) % lens.getD i 0)
          (Val.int 0)) := by
  unfold NdArr.flat
  rw [meshFold_shape lens dim i _ hlen hi]
  apply List.map_congr_left
  intro f hf
  rw [meshFold_data]
  congr 1
  unfold unflattenIdx
  rw [getD_map_range _ _ _ _ (by rw [hlen]; exact hi)]

lemma nd_meshgrid_component (arrs0 : List (List Val)) (m : Nat) (hm : m < arrs0.length) :
    ((nd_meshgrid arrs0).map NdArr.flat).getD m [] =
      (List.range (prodList (arrs0.map List.length))).map
        (fun f => (arrs0.getD m []).getD
          ((f / prodList ((arrs0.map List.length).take m)) % (arrs0.getD m []).length)
          (Val.int 0)) := by
  have hrevlen : arrs0.reverse.length = arrs0.length := by simp
  simp only [nd_meshgrid, hrevlen]
  rw [List.map_reverse]
  rw [getD_reverse _ m _ (by simp; omega)]
  simp only [List.length_map, List.length_range]
  rw [List.getD_eq_getElem?_getD, List.getElem?_eq_getElem (by simp; omega)]
  simp only [List.getElem_map, List.getElem_range, Option.getD_some]
  rw [meshBuild_flat (arrs0.reverse.getD (arrs0.length - 1 - m) [])
    (arrs0.reverse.map List.length) arrs0.length (arrs0.length - 1 - m)
    (by simp) (by omega)]
  have e1 : arrs0.reverse.getD (arrs0.length - 1 - m) [] = arrs0.getD m [] := by
    rw [getD_reverse _ _ _ (by omega)]
    congr 1
    omega
  have e2 : arrs0.reverse.map List.length = (arrs0.map List.length).reverse :=
    List.map_reverse _ _
  have e4 : ((arrs0.map List.length).reverse).getD (arrs0.length - 1 - m) 0 =
      (arrs0.getD m []).length := by
    rw [getD_reverse _ _ _ (by simp; omega)]
    have hidx : (arrs0.map List.length).length - 1 - (arrs0.length - 1 - m) = m := by
      simp
      omega
    rw [hidx, getD_map_length _ _ hm]
  have e5 : ((arrs0.map List.length).reverse).drop (arrs0.length - 1 - m + 1) =
      ((arrs0.map List.length).take m).reverse := by
    rw [List.drop_reverse]
    congr 1
    simp
    omega
  simp only [e2, e4, e5, prodList_reverse, e1]

lemma mkParamGridAux_ok_inv (ns : List String) (pg : List (List Val)) (g : ParamGrid)
    (h : mkParamGridAux ns pg = .ok g) : g = ⟨ns, pg⟩ := by
  cases pg with
  | nil => cases h
  | cons v0 rest =>
    by_cases hc : ((v0 :: rest).all fun v => decide (v.length = v0.length)) = true
    · simp only [mkParamGridAux] at h
      rw [if_pos hc] at h
      injection h with h
      exact h.symm
    · simp only [mkParamGridAux] at h
      rw [if_neg hc] at h
      cases h

/-- Claim C1 (amended): in Cartesian (meshgrid) mode the value sequence of
parameter `m` at flat task index `f` is
`values[m][(f / prod(len(values[0..m-1]))) % len(values[m])]`: the
**first-listed** parameter varies fastest across consecutive task indices
(its index is `f % len(values[0])`) and the **last-listed** parameter
varies slowest - the reverse of the claimed order.  Accordingly,
names `[a, b]` with values `[[0, 1], [2, 3]]` yield exactly the 4 tasks
`(a,b) = (0,2), (1,2), (0,3), (1,3)` in that order (matching the `run`
docstring "First parameters are looped upon first"). -/
theorem c1_cartesian_order :
    (∀ (names : List String) (values : List (List Val)) (g : ParamGrid),
      mkParamGrid names values true = .ok g →
      ∀ m, m < values.length →
        g.values.getD m [] =
          (List.range (prodList (values.map List.length))).map
            (fun f => (values.getD m []).getD
              ((f / prodList ((values.map List.length).take m)) %
                (values.getD m []).length) (Val.int 0))) ∧
    (mkParamGrid ["a", "b"] [[.int 0, .int 1], [.int 2, .int 3]] true =
      .ok ⟨["a", "b"], [[.int 0, .int 1, .int 0, .int 1],
        [.int 2, .int 2, .int 3, .int 3]]⟩ ∧
    (List.range 4).map
        (getItemOpt ⟨["a", "b"], [[.int 0, .int 1, .int 0, .int 1],
          [.int 2, .int 2, .int 3, .int 3]]⟩) =
      [some [("a", .int 0), ("b", .int 2)], some [("a", .int 1), ("b", .int 2)],
       some [("a", .int 0), ("b", .int 3)], some [("a", .int 1), ("b", .int 3)]]) := by
  refine ⟨?_, by decide, by decide⟩
  intro names values g hg m hm
  have hval : g = ⟨names, (nd_meshgrid values).map NdArr.flat⟩ :=
    mkParamGridAux_ok_inv names _ g hg
  rw [hval]
  exact nd_meshgrid_component values m hm

/-- Claim C1 witness: the general formula applied to the 2-by-2 example,
for both parameters. -/
theorem c1_cartesian_order_witness :
    (⟨["a", "b"], [[.int 0, .int 1, .int 0, .int 1],
        [.int 2, .int 2, .int 3, .int 3]]⟩ : ParamGrid).values.getD 0 [] =
      [Val.int 0, .int 1, .int 0, .int 1] ∧
    (⟨["a", "b"], [[.int 0, .int 1, .int 0, .int 1],
        [.int 2, .int 2, .int 3, .int 3]]⟩ : ParamGrid).values.getD 1 [] =
      [Val.int 2, .int 2, .int 3, .int 3] := by
  have h0 := c1_cartesian_order.1 ["a", "b"] [[.int 0, .int 1], [.int 2, .int 3]]
    ⟨["a", "b"], [[.int 0, .int 1, .int 0, .int 1], [.int 2, .int 2, .int 3, .int 3]]⟩
    (by decide) 0 (by decide)
  have h1 := c1_cartesian_order.1 ["a", "b"] [[.int 0, .int 1], [.int 2, .int 3]]
    ⟨["a", "b"], [[.int 0, .int 1, .int 0, .int 1], [.int 2, .int 2, .int 3, .int 3]]⟩
    (by decide) 1 (by decide)
  exact ⟨h0.trans (by decide), h1.trans (by decide)⟩

/-- Claim C1 counterexample: the claim says the tasks of names `[a, b]`,
values `[[0, 1], [2, 3]]` appear in order `(0,2), (0,3), (1,2), (1,3)`
(last parameter fastest); the code produces `(0,2), (1,2), (0,3), (1,3)`;
in particular task index 1 is `(a, b) = (1, 2)`, not the claimed `(0, 3)`. -/
theorem c1_cartesian_order_counterexample :
    mkParamGrid ["a", "b"] [[.int 0, .int 1], [.int 2, .int 3]] true =
      .ok ⟨["a", "b"], [[.int 0, .int 1, .int 0, .int 1],
        [.int 2, .int 2, .int 3, .int 3]]⟩ ∧
    getItemOpt ⟨["a", "b"], [[.int 0, .int 1, .int 0, .int 1],
        [.int 2, .int 2, .int 3, .int 3]]⟩ 1 = some [("a", .int 1), ("b", .int 2)] ∧
    (some [("a", Val.int 1), ("b", Val.int 2)] ≠
      some [("a", Val.int 0), ("b", Val.int 3)]) := by
  refine ⟨by decide, by decide, by decide⟩
